import Mathlib

/-!
Verification development for the LLMO website audit engine
(`apps/backend/services/web_scraper.py`, class `WebScraperService`).

The Python service is embedded shallowly:

* Machine arithmetic: Python `int` is modelled as `ℤ` (or `ℕ` for counts);
  Python `float` arithmetic is modelled as exact arithmetic over `ℚ`
  (the engine only adds/multiplies/divides small decimal constants).
* `int(x)` (truncation toward zero) is `pyInt`; `round(x)`
  (round-half-to-even) is `pyRound`; `round(x, 1)` is `pyRound1`.
* Parsed JSON-LD (the output of `json.loads`) is the inductive type `Json`;
  Python `dict`s appearing in reports are association lists in insertion
  order, updated with `upsert` (assignment to an existing key keeps its
  position, as in Python).
* BeautifulSoup is an external library; an `HtmlDoc` records the results of
  the individual `soup` queries the service performs (title text, meta tags,
  heading sequence, JSON-LD script blocks with their parse outcome, etc.).
  Raw page text (`soup.get_text()`) is carried verbatim and the service's
  own text processing (whitespace splitting, regex scans) is implemented
  over it.  Character classes follow the ASCII reading of the Python
  patterns.
* Python exceptions that the service can hit while processing one JSON-LD
  block (`TypeError` from `.split` on a non-string `@type`, or from using an
  unhashable value as a `dict` key) are modelled with `Except Unit`; the
  enclosing `try/except` of `_analyze_schema_org` records them as
  `Schema processing error` entries.  Exact Python exception message texts
  are abstracted to fixed strings.
-/

namespace LLMO

/-! ### Python numeric primitives -/

/-- Python `int(x)` for a rational `x`: truncation toward zero. -/
def pyInt (q : ℚ) : ℤ := if 0 ≤ q then ⌊q⌋ else ⌈q⌉

/-- Python `round(x)` for a rational `x`: round half to even. -/
def pyRound (q : ℚ) : ℤ :=
  let f := ⌊q⌋
  let t : ℚ := q - (f : ℚ)
  if t < 1/2 then f
  else if 1/2 < t then f + 1
  else if f % 2 = 0 then f else f + 1

/-- Python `round(x, 1)` (one decimal place), as a rational. -/
def pyRound1 (q : ℚ) : ℚ := (pyRound (q * 10) : ℚ) / 10

/-- Python `round(x, 2)` (two decimal places), as a rational. -/
def pyRound2 (q : ℚ) : ℚ := (pyRound (q * 100) : ℚ) / 100

theorem pyInt_nonneg {q : ℚ} (h : 0 ≤ q) : 0 ≤ pyInt q := by
  simp only [pyInt, if_pos h]
  exact Int.floor_nonneg.mpr h

theorem pyInt_le {q : ℚ} (h : 0 ≤ q) : (pyInt q : ℚ) ≤ q := by
  simp only [pyInt, if_pos h]
  exact Int.floor_le q

theorem pyInt_le_of_le {q c : ℚ} (h0 : 0 ≤ q) (h : q ≤ c) : (pyInt q : ℚ) ≤ c :=
  le_trans (pyInt_le h0) h

theorem pyRound_nonneg {q : ℚ} (h : 0 ≤ q) : 0 ≤ pyRound q := by
  have hf : (0 : ℤ) ≤ ⌊q⌋ := Int.floor_nonneg.mpr h
  simp only [pyRound]
  split
  · exact hf
  · split
    · omega
    · split
      · exact hf
      · omega

theorem pyRound_le {q : ℚ} {n : ℤ} (h : q ≤ (n : ℚ)) : pyRound q ≤ n := by
  have hf : ⌊q⌋ ≤ n := by
    exact_mod_cast Int.floor_le_floor h |>.trans_eq (Int.floor_intCast n)
  simp only [pyRound]
  split
  · exact hf
  · rename_i h1
    push_neg at h1
    split
    · rename_i h2
      -- here q - ⌊q⌋ > 1/2, so ⌊q⌋ < q ≤ n hence ⌊q⌋ + 1 ≤ n
      have hlt : (⌊q⌋ : ℚ) < q := by linarith
      have : ⌊q⌋ < n := by
        by_contra hcon
        push_neg at hcon
        have : (n : ℚ) ≤ (⌊q⌋ : ℚ) := by exact_mod_cast hcon
        linarith
      omega
    · rename_i h2
      push_neg at h2
      have ht : q - (⌊q⌋ : ℚ) = 1/2 := le_antisymm h2 h1
      have hlt : (⌊q⌋ : ℚ) < q := by linarith
      have : ⌊q⌋ < n := by
        by_contra hcon
        push_neg at hcon
        have : (n : ℚ) ≤ (⌊q⌋ : ℚ) := by exact_mod_cast hcon
        linarith
      split
      · omega
      · omega

/-! ### Python string primitives, over `List Char`

`String` values are carried in the data model; the service's own text
processing is implemented structurally over `String.data`. -/

/-- Python `\s` (ASCII): space, tab, newline, carriage return,
vertical tab, form feed. -/
def pySpace (c : Char) : Bool :=
  c = ' ' ∨ c = '\t' ∨ c = '\n' ∨ c = '\r' ∨ c = '\x0b' ∨ c = '\x0c'

/-- Python `\w` (ASCII): letters, digits, underscore. -/
def pyWordChar (c : Char) : Bool := c.isAlphanum ∨ c = '_'

/-- `listHasPrefixOf p s`: `p` is a prefix of `s`. -/
def listHasPrefixOf : List Char → List Char → Bool
  | [], _ => true
  | _ :: _, [] => false
  | p :: ps, s :: ss => p = s ∧ listHasPrefixOf ps ss

/-- Python `needle in haystack` on `List Char` (contiguous substring). -/
def listHasSub (needle : List Char) : List Char → Bool
  | [] => listHasPrefixOf needle []
  | c :: rest => listHasPrefixOf needle (c :: rest) ∨ listHasSub needle rest

/-- Python `needle in haystack` for `String`s (substring test). -/
def strContains (haystack needle : String) : Bool :=
  listHasSub needle.data haystack.data

/-- Python `s.startswith(p)`. -/
def pyStartsWith (s p : String) : Bool := listHasPrefixOf p.data s.data

/-- Python `s.split()` – split on whitespace runs, dropping empty pieces. -/
def pySplitWsChars : List Char → List (List Char)
  | [] => []
  | c :: rest =>
      let groups := pySplitWsChars rest
      if pySpace c then groups
      else
        match rest with
        | [] => [[c]]
        | c2 :: _ =>
            if pySpace c2 then [c] :: groups
            else
              match groups with
              | [] => [[c]]
              | g :: gs => (c :: g) :: gs

/-- Python `s.split()` on strings. -/
def pySplitWs (s : String) : List String :=
  (pySplitWsChars s.data).map (fun l => String.mk l)

/-- Python `len(s.split())`: number of whitespace-separated words. -/
def pyWordCount (s : String) : ℕ := (pySplitWs s).length

/-- Split at the first occurrence of the (nonempty) separator:
`(piece before, rest after the separator)`. -/
def splitFirstAt (sep : List Char) : List Char → Option (List Char × List Char)
  | [] => none
  | c :: rest =>
      if listHasPrefixOf sep (c :: rest) then
        some ([], (c :: rest).drop sep.length)
      else
        match splitFirstAt sep rest with
        | some (before, after) => some (c :: before, after)
        | none => none

/-- Python `s.split(sep)` for a nonempty separator, over char lists.
The fuel (any bound on the number of separator occurrences plus one,
e.g. the input length plus one) makes the recursion structural. -/
def pySplitOnChars (sep : List Char) : ℕ → List Char → List (List Char)
  | 0, l => [l]
  | fuel + 1, l =>
      match splitFirstAt sep l with
      | some (before, after) => before :: pySplitOnChars sep fuel after
      | none => [l]

/-- Python `s.split(sep)` on strings. -/
def pySplitOn (s sep : String) : List String :=
  (pySplitOnChars sep.data (s.data.length + 1) s.data).map
    (fun l => String.mk l)

/-- Python `sep.join(parts)`. -/
def pyJoin (sep : String) (parts : List String) : String :=
  match parts with
  | [] => ""
  | p :: rest => rest.foldl (fun acc x => acc ++ sep ++ x) p

/-- Python `s.strip()` (ASCII whitespace). -/
def pyStrip (s : String) : String :=
  String.mk (((s.data.dropWhile (fun c => pySpace c)).reverse.dropWhile
      (fun c => pySpace c)).reverse)

/-- Python `s.lower()` (ASCII). -/
def pyLower (s : String) : String := String.mk (s.data.map Char.toLower)

/-- Python `re.sub(r'\s+', ' ', s)`: collapse each whitespace run to a
single space. -/
def collapseWsChars : List Char → List Char
  | [] => []
  | c :: rest =>
      if pySpace c then
        match rest with
        | [] => [' ']
        | c2 :: _ =>
            if pySpace c2 then collapseWsChars rest
            else ' ' :: collapseWsChars rest
      else c :: collapseWsChars rest

/-- Decimal digits of a natural number, most significant first. -/
def natDigitsAux : ℕ → List Char → List Char
  | n, acc =>
      let d := Char.ofNat (48 + n % 10)
      let rest := n / 10
      if rest = 0 then d :: acc
      else natDigitsAux rest (d :: acc)
  termination_by n => n
  decreasing_by
    rename_i h
    have : n ≠ 0 := by
      intro h0
      subst h0
      simp at h
    omega

/-- Python `str(n)` for a natural number. -/
def natRepr (n : ℕ) : String := String.mk (natDigitsAux n [])

/-- Python `str(n)` for an integer. -/
def intRepr (n : ℤ) : String :=
  if n < 0 then "-" ++ natRepr n.natAbs else natRepr n.natAbs

/-- Python `f"{q:.1f}"`: fixed-point formatting with one decimal place
(as produced for a nonnegative rational). -/
def formatFixed1 (q : ℚ) : String :=
  let r := pyRound (q * 10)
  intRepr (Int.ediv r 10) ++ "." ++ natRepr (Int.emod r 10).natAbs

/-- Python `int(s)` for a string: optional sign and decimal digits after
stripping whitespace; `none` models the `ValueError`/`TypeError` path. -/
def pyParseInt (s : String) : Option ℤ :=
  let t := (pyStrip s).data
  let sd : ℤ × List Char :=
    match t with
    | '-' :: rest => (-1, rest)
    | '+' :: rest => (1, rest)
    | _ => (1, t)
  if sd.2 ≠ [] ∧ sd.2.all Char.isDigit then
    some (sd.1 * ((sd.2.foldl (fun acc c => acc * 10 + (c.toNat - 48)) 0 : ℕ) : ℤ))
  else none

/-! ### Association lists (Python `dict` in insertion order) -/

/-- Association list lookup (first match), like Python `d.get(k)`. -/
def alookup {α : Type} : List (String × α) → String → Option α
  | [], _ => none
  | (k2, v) :: rest, k => if k2 = k then some v else alookup rest k

/-- Python `k in d`. -/
def amem {α : Type} (l : List (String × α)) (k : String) : Bool :=
  (alookup l k).isSome

/-- Python `d[k] = v`: overwrite in place if present (keeping position),
else append at the end. -/
def upsert {α : Type} : List (String × α) → String → α → List (String × α)
  | [], k, v => [(k, v)]
  | (k2, v2) :: rest, k, v =>
      if k2 = k then (k2, v) :: rest else (k2, v2) :: upsert rest k v

/-- Append `x` if not already present (Python `set.add`, with the set
modelled in insertion order). -/
def insertIfAbsent (l : List String) (x : String) : List String :=
  if x ∈ l then l else l ++ [x]

/-- Union preserving first-insertion order. -/
def unionKeep (l : List String) (xs : List String) : List String :=
  xs.foldl insertIfAbsent l

/-! ### Stable sort (Python `list.sort(key=...)` is stable) -/

/-- Insert `x` before the first element `y` with `le x y`; `x` therefore
lands after every earlier element it ties with. -/
def stableInsert {α : Type} (le : α → α → Bool) (x : α) : List α → List α
  | [] => [x]
  | y :: ys => if le x y then x :: y :: ys else y :: stableInsert le x ys

/-- Stable sort by the boolean total preorder `le` (insertion sort). -/
def stableSort {α : Type} (le : α → α → Bool) : List α → List α
  | [] => []
  | x :: xs => stableInsert le x (stableSort le xs)

theorem mem_stableInsert {α : Type} (le : α → α → Bool) (x z : α)
    (l : List α) : z ∈ stableInsert le x l ↔ z = x ∨ z ∈ l := by
  induction l with
  | nil => simp [stableInsert]
  | cons y ys ih =>
      simp only [stableInsert]
      split
      · simp [or_comm, or_assoc, or_left_comm]
      · simp [ih]
        tauto

theorem mem_stableSort {α : Type} (le : α → α → Bool) (z : α)
    (l : List α) : z ∈ stableSort le l ↔ z ∈ l := by
  induction l with
  | nil => simp [stableSort]
  | cons y ys ih =>
      simp [stableSort, mem_stableInsert, ih]

theorem pairwise_stableInsert {α : Type} (le : α → α → Bool)
    (htot : ∀ a b, le a b = true ∨ le b a = true)
    (htrans : ∀ a b c, le a b = true → le b c = true → le a c = true)
    (x : α) (l : List α) (h : l.Pairwise (fun a b => le a b = true)) :
    (stableInsert le x l).Pairwise (fun a b => le a b = true) := by
  induction l with
  | nil => simp [stableInsert]
  | cons y ys ih =>
      simp only [stableInsert]
      rcases List.pairwise_cons.mp h with ⟨hy, hys⟩
      split
      · rename_i hxy
        refine List.pairwise_cons.mpr ⟨?_, h⟩
        intro z hz
        rcases List.mem_cons.mp hz with rfl | hzys
        · exact hxy
        · exact htrans x y z hxy (hy z hzys)
      · rename_i hxy
        have hyx : le y x = true := by
          rcases htot x y with h1 | h1
          · exact absurd h1 hxy
          · exact h1
        refine List.pairwise_cons.mpr ⟨?_, ih hys⟩
        intro z hz
        rcases (mem_stableInsert le x z ys).mp hz with rfl | hzys
        · exact hyx
        · exact hy z hzys

theorem pairwise_stableSort {α : Type} (le : α → α → Bool)
    (htot : ∀ a b, le a b = true ∨ le b a = true)
    (htrans : ∀ a b c, le a b = true → le b c = true → le a c = true)
    (l : List α) :
    (stableSort le l).Pairwise (fun a b => le a b = true) := by
  induction l with
  | nil => simp [stableSort]
  | cons y ys ih =>
      exact pairwise_stableInsert le htot htrans y (stableSort le ys) ih

/-- Stability, phrased for a rank function: within one rank class the
original order is preserved. -/
theorem filter_stableInsert_rank {α : Type} (rank : α → ℕ) (k : ℕ)
    (x : α) (l : List α) :
    (stableInsert (fun a b => rank a ≤ rank b) x l).filter
        (fun a => rank a = k) =
      if rank x = k then
        x :: l.filter (fun a => rank a = k)
      else l.filter (fun a => rank a = k) := by
  induction l with
  | nil =>
      by_cases hxk : rank x = k <;> simp [stableInsert, hxk]
  | cons y ys ih =>
      simp only [stableInsert]
      split
      · by_cases hxk : rank x = k <;> simp [List.filter_cons, hxk]
      · rename_i hxy
        have hyx : rank y < rank x := by
          by_contra hcon
          push_neg at hcon
          simp [hcon] at hxy
        by_cases hxk : rank x = k
        · have hyk : ¬ (rank y = k) := by omega
          simp [List.filter_cons, ih, hxk, hyk]
        · by_cases hyk : rank y = k <;>
            simp [List.filter_cons, ih, hxk, hyk]

theorem filter_stableSort_rank {α : Type} (rank : α → ℕ) (k : ℕ)
    (l : List α) :
    (stableSort (fun a b => rank a ≤ rank b) l).filter
        (fun a => rank a = k) = l.filter (fun a => rank a = k) := by
  induction l with
  | nil => simp [stableSort]
  | cons y ys ih =>
      simp only [stableSort, filter_stableInsert_rank, ih]
      by_cases hyk : rank y = k <;> simp [List.filter_cons, hyk]

/-! ### Parsed JSON values (`json.loads` output) -/

/-- A parsed JSON value.  `obj` carries the dict entries in insertion
order; `json.loads` produces unique keys. -/
inductive Json where
  | null
  | bool (b : Bool)
  | num (q : ℚ)
  | str (s : String)
  | arr (items : List Json)
  | obj (fields : List (String × Json))

/-- Python truthiness of a parsed JSON value. -/
def Json.truthy : Json → Bool
  | .null => false
  | .bool b => b
  | .num q => q ≠ 0
  | .str s => s ≠ ""
  | .arr items => !items.isEmpty
  | .obj fields => !fields.isEmpty

/-- Python `==` between a parsed JSON value and a string literal
(only a `str` can equal a `str`). -/
def Json.eqStr : Json → String → Bool
  | .str t, s => t = s
  | _, _ => false

/-! ### `_analyze_schema_org` and helpers -/

/-- The `llm_valuable_schemas` table of `_analyze_schema_org`. -/
def llm_valuable_schemas : List (String × List String) :=
  [("Organization", ["name", "url", "logo", "description", "sameAs"]),
   ("LocalBusiness", ["name", "address", "telephone", "openingHours",
      "priceRange"]),
   ("Product", ["name", "description", "image", "offers", "brand", "review"]),
   ("FAQPage", ["mainEntity"]),
   ("Question", ["name", "acceptedAnswer"]),
   ("Article", ["headline", "author", "datePublished", "publisher",
      "description"]),
   ("BreadcrumbList", ["itemListElement"]),
   ("WebSite", ["name", "url", "potentialAction"]),
   ("Person", ["name", "jobTitle", "affiliation", "description"]),
   ("Review", ["reviewRating", "author", "itemReviewed"]),
   ("Event", ["name", "startDate", "location", "description"]),
   ("Recipe", ["name", "recipeIngredient", "recipeInstructions", "image"]),
   ("HowTo", ["name", "step", "tool", "supply"])]

/-- `_extract_schema_type` composed with the caller's
`for t in schema_type.split(', '): schema_types.add(t)` loop.
`.error ()` is the `TypeError` raised by `.split` / `', '.join` on a
non-string `@type`; `.ok []` covers both `None` and falsy returns
(the caller guards with `if schema_type:`). -/
def blockTypeNames (j : Json) : Except Unit (List String) :=
  match j with
  | .obj fields =>
      match alookup fields "@type" with
      | some v =>
          if v.truthy then
            match v with
            | .str s => .ok (pySplitOn s ", ")
            | _ => .error ()
          else .ok []
      | none =>
          match alookup fields "@graph" with
          | some (.arr items) =>
              let vs := items.filterMap (fun it =>
                match it with
                | .obj ifs => alookup ifs "@type"
                | _ => none)
              if vs.isEmpty then .ok []
              else if vs.all (fun v => match v with
                  | .str _ => true
                  | _ => false) then
                let joined := pyJoin ", " (vs.map (fun v => match v with
                  | .str s => s
                  | _ => ""))
                if joined = "" then .ok []
                else .ok (pySplitOn joined ", ")
              else .error ()
          | _ => .ok []
  | _ => .ok []

/-- `prop_name = f"{prefix}{key}" if prefix else key`. -/
def propName (pfx k : String) : String := if pfx = "" then k else pfx ++ k

mutual

/-- Inner `process_dict` of `_extract_schema_properties`.  The per-block
`properties` dict always stores value `1`, so it is carried as its key
list in first-insertion order. -/
def processDictProps (acc : List String) (pfx : String) :
    List (String × Json) → List String
  | [] => acc
  | (k, v) :: rest =>
      if pyStartsWith k "@" then processDictProps acc pfx rest
      else
        processDictProps
          (processValProps (insertIfAbsent acc (propName pfx k))
            (propName pfx k) v) pfx rest
  termination_by l => sizeOf l

/-- The `isinstance(value, dict)` / `isinstance(value, list)` dispatch on
one property value of `process_dict` (any other value adds nothing). -/
def processValProps (acc : List String) (prop_name : String) :
    Json → List String
  | .obj fs => processDictProps acc (prop_name ++ ".") fs
  | .arr items => processListProps acc (prop_name ++ ".") items
  | _ => acc
  termination_by j => sizeOf j

/-- The `elif isinstance(value, list)` arm of `process_dict`: descend
into dict elements with the prefix `f"{prop_name}."`. -/
def processListProps (acc : List String) (pfx : String) :
    List Json → List String
  | [] => acc
  | .obj fs :: rest => processListProps (processDictProps acc pfx fs) pfx rest
  | _ :: rest => processListProps acc pfx rest
  termination_by l => sizeOf l

end

/-- `_extract_schema_properties`: dot-joined property paths of one parsed
block (dict keys in insertion order). -/
def extract_schema_properties (j : Json) : List String :=
  match j with
  | .obj fields =>
      let props := processDictProps [] "" fields
      match alookup fields "@graph" with
      | some (.arr items) => processListProps props "" items
      | _ => props
  | _ => []

mutual

/-- `process_entity` of `_analyze_schema_completeness`, acting on a dict.
`.error ()` is the `TypeError` from using an unhashable `@type` (list or
dict) as a dict key in `entity_type in valuable_schemas`. -/
def processEntityObj (acc : List (String × ℚ)) :
    List (String × Json) → Except Unit (List (String × ℚ))
  | fields =>
      match alookup fields "@type" with
      | none => .ok acc
      | some tv => do
          let acc1 ←
            match tv with
            | .arr _ => .error ()
            | .obj _ => .error ()
            | .str s =>
                match alookup llm_valuable_schemas s with
                | some required_props =>
                    let present_props :=
                      required_props.filter (fun p => amem fields p)
                    let score : ℚ :=
                      if required_props ≠ [] then
                        (present_props.length : ℚ) / (required_props.length : ℚ)
                      else 0
                    pure (upsert acc s score)
                | none => pure acc
            | _ => pure acc
          processEntityFields acc1 fields
  termination_by l => (sizeOf l, 1)

/-- The nested-entity loop of `process_entity` over the dict items. -/
def processEntityFields (acc : List (String × ℚ)) :
    List (String × Json) → Except Unit (List (String × ℚ))
  | [] => .ok acc
  | (_, v) :: rest => do
      let acc1 ←
        match v with
        | .obj fs => if amem fs "@type" then processEntityObj acc fs else pure acc
        | .arr items => processEntityArr acc items
        | _ => pure acc
      processEntityFields acc1 rest
  termination_by l => (sizeOf l, 0)

/-- The list arm of the nested-entity loop. -/
def processEntityArr (acc : List (String × ℚ)) :
    List Json → Except Unit (List (String × ℚ))
  | [] => .ok acc
  | j :: rest => do
      let acc1 ←
        match j with
        | .obj fs => if amem fs "@type" then processEntityObj acc fs else pure acc
        | _ => pure acc
      processEntityArr acc1 rest
  termination_by l => (sizeOf l, 0)

end

/-- The `for item in schema_data['@graph']: process_entity(item)` loop of
`_analyze_schema_completeness` (non-dict items return immediately). -/
def processGraphEntities (acc : List (String × ℚ)) :
    List Json → Except Unit (List (String × ℚ))
  | [] => .ok acc
  | j :: rest => do
      let acc1 ←
        match j with
        | .obj fs => processEntityObj acc fs
        | _ => pure acc
      processGraphEntities acc1 rest

/-- `_analyze_schema_completeness` on one parsed block: per-type
completeness ratio against `llm_valuable_schemas`. -/
def analyze_schema_completeness (j : Json) :
    Except Unit (List (String × ℚ)) :=
  match j with
  | .obj fields => do
      let acc ← processEntityObj [] fields
      match alookup fields "@graph" with
      | some (.arr items) => processGraphEntities acc items
      | _ => pure acc
  | _ => .ok []

/-- One entry of `entity_ids` in `_extract_schema_relationships`:
`(@id value, @type value, path)`. -/
abbrev IdMap := List (Json × Json × String)

/-- Python dict-key equality restricted to the hashable parsed-JSON
values that can reach `entity_ids` (numeric `True == 1` coercions are
not modelled). -/
def jsonKeyEq : Json → Json → Bool
  | .str a, .str b => a = b
  | .num a, .num b => a = b
  | .bool a, .bool b => a = b
  | .null, .null => true
  | _, _ => false

/-- `entity_ids[entity_id] = {...}`: overwrite keeping position. -/
def upsertId (l : IdMap) (k tv : Json) (path : String) : IdMap :=
  match l with
  | [] => [(k, tv, path)]
  | (k2, e) :: rest =>
      if jsonKeyEq k2 k then (k2, tv, path) :: rest
      else (k2, e) :: upsertId rest k tv path

/-- `value in entity_ids` / `entity_ids[value]` for a string value. -/
def lookupId (l : IdMap) (s : String) : Option (Json × String) :=
  match l with
  | [] => none
  | (k, tv, path) :: rest =>
      if jsonKeyEq k (.str s) then some (tv, path) else lookupId rest s

mutual

/-- `collect_ids` of `_extract_schema_relationships` on a dict.
`.error ()` is the `TypeError` from an unhashable (list/dict) `@id`. -/
def collectIdsObj (ids : IdMap) (path : String) :
    List (String × Json) → Except Unit IdMap
  | fields => do
      let ids1 ←
        match alookup fields "@id", alookup fields "@type" with
        | some idv, some tv =>
            if idv.truthy ∧ tv.truthy then
              match idv with
              | .arr _ => .error ()
              | .obj _ => .error ()
              | _ => pure (upsertId ids idv tv path)
            else pure ids
        | _, _ => pure ids
      collectIdsFields ids1 path fields
  termination_by l => (sizeOf l, 1)

/-- The item loop of `collect_ids` (note: `@`-keys are not skipped). -/
def collectIdsFields (ids : IdMap) (path : String) :
    List (String × Json) → Except Unit IdMap
  | [] => .ok ids
  | (k, v) :: rest => do
      let ids1 ←
        match v with
        | .obj fs =>
            collectIdsObj ids (if path = "" then k else path ++ "." ++ k) fs
        | .arr items => collectIdsArr ids path k 0 items
        | _ => pure ids
      collectIdsFields ids1 path rest
  termination_by l => (sizeOf l, 0)

/-- The `enumerate(value)` arm of `collect_ids`. -/
def collectIdsArr (ids : IdMap) (path k : String) (i : ℕ) :
    List Json → Except Unit IdMap
  | [] => .ok ids
  | .obj fs :: rest => do
      let p := (if path = "" then k ++ "[" ++ natRepr i ++ "]"
        else path ++ "." ++ k ++ "[" ++ natRepr i ++ "]")
      let ids1 ← collectIdsObj ids p fs
      collectIdsArr ids1 path k (i + 1) rest
  | _ :: rest => collectIdsArr ids path k (i + 1) rest
  termination_by l => (sizeOf l, 0)

end

/-- One extracted relationship record. -/
structure SchemaRelationship where
  source_type : Option Json
  source_path : String
  relation : String
  target_type : Json
  target_path : String

mutual

/-- `find_relationships` of `_extract_schema_relationships` on a dict:
`source_type = entity.get('@type')`, then scan the non-`@` items. -/
def findRelsObj (ids : IdMap) (rels : List SchemaRelationship)
    (path : String) : List (String × Json) → List SchemaRelationship
  | fields => findRelsFields ids (alookup fields "@type") rels path fields
  termination_by l => (sizeOf l, 1)

/-- The item loop of `find_relationships` (`@`-keys skipped). -/
def findRelsFields (ids : IdMap) (src : Option Json)
    (rels : List SchemaRelationship) (path : String) :
    List (String × Json) → List SchemaRelationship
  | [] => rels
  | (k, v) :: rest =>
      if pyStartsWith k "@" then findRelsFields ids src rels path rest
      else
        let rels1 :=
          match v with
          | .str s =>
              match lookupId ids s with
              | some (tv, tp) => rels ++ [⟨src, path, k, tv, tp⟩]
              | none => rels
          | .obj fs =>
              findRelsObj ids rels (if path = "" then k else path ++ "." ++ k) fs
          | .arr items => findRelsArr ids rels path k 0 items
          | _ => rels
        findRelsFields ids src rels1 path rest
  termination_by l => (sizeOf l, 0)

/-- The `enumerate(value)` arm of `find_relationships`. -/
def findRelsArr (ids : IdMap) (rels : List SchemaRelationship)
    (path k : String) (i : ℕ) : List Json → List SchemaRelationship
  | [] => rels
  | .obj fs :: rest =>
      let p := (if path = "" then k ++ "[" ++ natRepr i ++ "]"
        else path ++ "." ++ k ++ "[" ++ natRepr i ++ "]")
      findRelsArr ids (findRelsObj ids rels p fs) path k (i + 1) rest
  | _ :: rest => findRelsArr ids rels path k (i + 1) rest
  termination_by l => (sizeOf l, 0)

end

/-- The graph loop of the first (id-collection) pass:
`for item in schema_data['@graph']: collect_ids(item)`. -/
def collectGraphIds (ids : IdMap) : List Json → Except Unit IdMap
  | [] => .ok ids
  | .obj fs :: rest => do
      let ids1 ← collectIdsObj ids "" fs
      collectGraphIds ids1 rest
  | _ :: rest => collectGraphIds ids rest

/-- The graph loop of the second (relationship) pass. -/
def findGraphRels (ids : IdMap) (rels : List SchemaRelationship) :
    List Json → List SchemaRelationship
  | [] => rels
  | .obj fs :: rest => findGraphRels ids (findRelsObj ids rels "" fs) rest
  | _ :: rest => findGraphRels ids rels rest

/-- `_extract_schema_relationships` on one parsed block.  The Python
call order is: `collect_ids(schema_data)`, `find_relationships
(schema_data)`, then for `@graph` items another id pass followed by
another relationship pass. -/
def extract_schema_relationships (j : Json) :
    Except Unit (List SchemaRelationship) :=
  match j with
  | .obj fields => do
      let ids ← collectIdsObj [] "" fields
      let rels1 := findRelsObj ids [] "" fields
      match alookup fields "@graph" with
      | some (.arr items) => do
          let ids2 ← collectGraphIds ids items
          pure (findGraphRels ids2 rels1 items)
      | _ => pure rels1
  | _ => .ok []

/-- The `high_value_types` weight table of
`_calculate_schema_quality_score`. -/
def high_value_types_weights : List (String × ℤ) :=
  [("Organization", 8), ("LocalBusiness", 8), ("Product", 8),
   ("FAQPage", 7), ("Article", 7), ("BreadcrumbList", 5), ("WebSite", 5),
   ("Person", 5), ("Review", 5), ("Event", 4), ("Recipe", 4), ("HowTo", 4)]

/-- `_calculate_schema_quality_score` (0–100). -/
def calculate_schema_quality_score (schema_types : List String)
    (properties : List (String × ℕ)) (completeness : List (String × ℚ))
    (errors : List String) : ℤ :=
  let type_score : ℤ :=
    ((schema_types.filter (fun t => amem high_value_types_weights t)).map
      (fun t => (alookup high_value_types_weights t).getD 1)).sum
  let type_score := min 40 type_score
  let property_count : ℤ := (properties.length : ℤ)
  let prop_score : ℤ :=
    if property_count ≥ 50 then 20
    else if property_count ≥ 30 then 15
    else if property_count ≥ 20 then 10
    else if property_count ≥ 10 then 5
    else max 0 property_count
  let completeness_score : ℤ :=
    if completeness ≠ [] then
      pyInt (((completeness.map Prod.snd).sum /
        ((completeness.length : ℚ))) * 30)
    else 0
  let error_penalty : ℤ := min 10 ((errors.length : ℤ) * 2)
  max 0 (min 100 (type_score + prop_score + completeness_score - error_penalty))

/-- Mutable state of the script loop in `_analyze_schema_org`. -/
structure SchemaState where
  schemas : List Json
  schema_types : List String
  schema_properties : List (String × ℕ)
  schema_errors : List String
  schema_relationships : List SchemaRelationship
  schema_completeness : List (String × List ℚ)

/-- Initial state of the script loop. -/
def initSchemaState : SchemaState :=
  { schemas := [], schema_types := [], schema_properties := [],
    schema_errors := [], schema_relationships := [],
    schema_completeness := [] }

/-- One iteration of the `for script in schema_scripts` loop of
`_analyze_schema_org`.  A `TypeError` mid-block keeps the effects of the
statements already executed and records one
`Schema processing error` entry. -/
def processBlock (st : SchemaState) : Except String Json → SchemaState
  | .error msg =>
      { st with schema_errors := st.schema_errors ++ ["Invalid JSON: " ++ msg] }
  | .ok j =>
      let st := { st with schemas := st.schemas ++ [j] }
      match blockTypeNames j with
      | .error _ =>
          { st with schema_errors :=
              st.schema_errors ++ ["Schema processing error: TypeError"] }
      | .ok ts =>
          let st := { st with schema_types := unionKeep st.schema_types ts }
          let props := extract_schema_properties j
          let newProps := props.foldl
            (fun d p => upsert d p ((alookup d p).getD 0 + 1))
            st.schema_properties
          let st := { st with schema_properties := newProps }
          match analyze_schema_completeness j with
          | .error _ =>
              { st with schema_errors :=
                  st.schema_errors ++ ["Schema processing error: TypeError"] }
          | .ok comp =>
              let newComp := comp.foldl
                (fun d kv => upsert d kv.1 ((alookup d kv.1).getD [] ++ [kv.2]))
                st.schema_completeness
              let st := { st with schema_completeness := newComp }
              match extract_schema_relationships j with
              | .error _ =>
                  { st with schema_errors :=
                      st.schema_errors ++
                        ["Schema processing error: TypeError"] }
              | .ok rels =>
                  { st with schema_relationships :=
                      st.schema_relationships ++ rels }

/-- The `schema_org` report of `_analyze_schema_org` (the
`high_value_schemas` sub-dict is flattened into `hv_*` fields). -/
structure SchemaReport where
  found : Bool
  count : ℕ
  types : List String
  schemas : List Json
  properties : List (String × ℕ)
  errors : List String
  hv_organization : Bool
  hv_product : Bool
  hv_faq : Bool
  hv_breadcrumb : Bool
  hv_article : Bool
  hv_website : Bool
  hv_person : Bool
  hv_review : Bool
  hv_event : Bool
  hv_howto : Bool
  property_count : ℕ
  completeness : List (String × ℚ)
  relationships : List SchemaRelationship
  quality_score : ℤ

/-- `_analyze_schema_org`, over the parse outcomes of the page's
`application/ld+json` script blocks. -/
def analyze_schema_org (scripts : List (Except String Json)) : SchemaReport :=
  let st := scripts.foldl processBlock initSchemaState
  let avg_completeness : List (String × ℚ) :=
    st.schema_completeness.map (fun kv =>
      (kv.1, kv.2.sum / (kv.2.length : ℚ)))
  let tys := st.schema_types
  { found := st.schemas.length > 0
    count := st.schemas.length
    types := tys
    schemas := st.schemas.take 3
    properties := st.schema_properties
    errors := st.schema_errors
    hv_organization := tys.contains "Organization" ∨
      tys.contains "LocalBusiness" ∨ tys.contains "Corporation"
    hv_product := tys.contains "Product"
    hv_faq := tys.contains "FAQPage" ∨ tys.contains "Question"
    hv_breadcrumb := tys.contains "BreadcrumbList"
    hv_article := tys.contains "Article" ∨ tys.contains "BlogPosting" ∨
      tys.contains "NewsArticle"
    hv_website := tys.contains "WebSite"
    hv_person := tys.contains "Person"
    hv_review := tys.contains "Review"
    hv_event := tys.contains "Event"
    hv_howto := tys.contains "HowTo" ∨ tys.contains "Recipe"
    property_count := st.schema_properties.length
    completeness := avg_completeness
    relationships := st.schema_relationships.take 10
    quality_score := calculate_schema_quality_score st.schema_types
      st.schema_properties avg_completeness st.schema_errors }

/-! ### The document model

`HtmlDoc` records the results of the BeautifulSoup queries the service
performs; the DOM itself is external. -/

structure HtmlDoc where
  /-- Parse outcomes of the `application/ld+json` script blocks
  (`json.loads(script.string)`), in document order. -/
  ldJsonScripts : List (Except String Json)
  /-- `.text` of the first `title` tag (`none` = no title tag). -/
  titleTagText : Option String
  /-- All `meta` tags carrying a `name` attribute: `(name, content)`. -/
  metasWithName : List (String × Option String)
  /-- All `meta` tags carrying a `property` attribute. -/
  propMetas : List (String × Option String)
  /-- First `link rel="canonical"` tag: its `href` attribute. -/
  canonicalHref : Option (Option String)
  /-- `(level, get_text())` of every `h1`–`h6`, in document order. -/
  headings : List (ℕ × String)
  /-- `get_text()` of every `p` element. -/
  paragraphTexts : List String
  /-- Number of elements with the given tag name (`soup.find_all(tag)`). -/
  tagCount : String → ℕ
  /-- Per `dl` element: the texts of its `dt`s and of its `dd`s. -/
  dls : List (List String × List String)
  /-- Per `h2`–`h6`/`strong` element that has a direct string: that
  string, and the `get_text()` of its `find_next(['p', 'div'])`. -/
  qhBlocks : List (String × Option String)
  /-- Number of `table` elements containing a `th`. -/
  tablesWithTh : ℕ
  /-- Number of `figure` elements containing a `figcaption`. -/
  figuresWithCaption : ℕ
  /-- Result sizes of the four accordion CSS-selector queries
  (`.accordion`, `.collapse`, `.expandable`,
  `[data-toggle="collapse"]`), in order. -/
  accordionSelectorCounts : List ℕ
  /-- `alt` attribute of every `img` element. -/
  imageAlts : List (Option String)
  /-- `href` of every `a[href]` element. -/
  anchorHrefs : List String
  /-- `.string` of every `style` element. -/
  styleStrings : List (Option String)
  /-- `media` attribute of every `link rel="stylesheet"` that has one. -/
  stylesheetMediaAttrs : List String
  /-- `soup.get_text()` of the whole page. -/
  text : String

/-- Python truthiness of an optional string report value
(`None` and `''` are falsy). -/
def truthyStr (o : Option String) : Bool :=
  match o with
  | some s => s ≠ ""
  | none => false

/-- `soup.find('meta', attrs={'name': name})`, as
(tag present?, content attribute). -/
def findMeta (doc : HtmlDoc) (name : String) : Option (Option String) :=
  (doc.metasWithName.find? (fun kv => kv.1 = name)).map Prod.snd

/-! ### `_analyze_meta_tags` -/

/-- The `meta_tags` report (the `completeness` sub-dict is flattened). -/
structure MetaReport where
  title : Option String
  title_length : ℕ
  description : Option String
  description_length : ℕ
  keywords : Option String
  canonical : Option String
  robots : Option String
  viewport : Option String
  og_tags : List (String × Option String)
  twitter_tags : List (String × Option String)
  article_tags : List (String × Option String)
  other_meta : List (String × Option String)
  completeness_basic : ℚ
  completeness_social : ℚ
  completeness_overall : ℚ

/-- `_calculate_basic_meta_completeness`.  The `brand_name` and
`language` clauses are dead code (the `meta_analysis` dict built by
`_analyze_meta_tags` never contains those keys) and are omitted. -/
def calculate_basic_meta_completeness (m : MetaReport) : ℚ :=
  let score : ℚ := 0
  let total_weight : ℚ := 0
  let st :=
    if truthyStr m.title then
      let weight : ℚ := 0.4
      let tl := m.title_length
      let s :=
        if 50 ≤ tl ∧ tl ≤ 65 then score + weight
        else if 40 ≤ tl ∧ tl ≤ 75 then score + weight * 0.8
        else if 30 ≤ tl ∧ tl ≤ 85 then score + weight * 0.6
        else score + weight * 0.3
      (s, total_weight + weight)
    else (score, total_weight)
  let score := st.1
  let total_weight := st.2
  let st :=
    if truthyStr m.description then
      let weight : ℚ := 0.4
      let dl := m.description_length
      let s :=
        if 140 ≤ dl ∧ dl ≤ 170 then score + weight
        else if 120 ≤ dl ∧ dl ≤ 190 then score + weight * 0.8
        else if 100 ≤ dl ∧ dl ≤ 220 then score + weight * 0.6
        else score + weight * 0.3
      let s :=
        if truthyStr m.keywords then
          let keywords := (pySplitOn (m.keywords.getD "") ",").map
            (fun k => pyLower (pyStrip k))
          let desc_lower := pyLower (m.description.getD "")
          let keyword_matches :=
            (keywords.filter (fun k => strContains desc_lower k)).length
          if 2 ≤ keyword_matches then s + 0.05 else s
        else s
      (s, total_weight + weight)
    else (score, total_weight)
  let score := st.1
  let total_weight := st.2
  let st :=
    if truthyStr m.canonical then (score + 0.1, total_weight + 0.1)
    else (score, total_weight)
  let score := st.1
  let total_weight := st.2
  let st :=
    if truthyStr m.robots then
      let weight : ℚ := 0.05
      if ¬ strContains (pyLower (m.robots.getD "")) "noindex" then
        (score + weight, total_weight + weight)
      else (score + weight * 0.2, total_weight + weight)
    else (score, total_weight)
  let score := st.1
  let total_weight := st.2
  let st :=
    if truthyStr m.viewport then (score + 0.05, total_weight + 0.05)
    else (score, total_weight)
  st.1 / max st.2 0.01

/-- The `og:image` dimension bonus of
`_calculate_social_meta_completeness` (`int()` failures fall through to
zero via the `except (ValueError, TypeError): pass` clause). -/
def og_image_dimension_bonus (og_tags : List (String × Option String)) : ℚ :=
  match alookup og_tags "og:image:width",
      alookup og_tags "og:image:height" with
  | some (some ws), some (some hs) =>
      match pyParseInt ws, pyParseInt hs with
      | some w, some h => if 1200 ≤ w ∧ 630 ≤ h then 0.1 else 0
      | _, _ => 0
  | _, _ => 0

/-- The `og:type == 'article'` bonus of
`_calculate_social_meta_completeness`. -/
def og_article_bonus (m : MetaReport) : ℚ :=
  if (alookup m.og_tags "og:type").join = some "article" then
    if m.article_tags ≠ [] then
      min 0.1 ((m.article_tags.length : ℚ) * 0.02)
    else 0
  else 0

/-- The Open Graph clause of `_calculate_social_meta_completeness`:
the `(score, total_weight)` pair after the OG block. -/
def socialOgStage (m : MetaReport) : ℚ × ℚ :=
  if m.og_tags ≠ [] then
    let weight : ℚ := 0.6
    let essential_tags := ["og:title", "og:description", "og:image",
      "og:url", "og:type"]
    let present_count :=
      (essential_tags.filter (fun t => amem m.og_tags t)).length
    let base_score : ℚ := (present_count : ℚ) / (essential_tags.length : ℚ)
    let quality_bonus := og_image_dimension_bonus m.og_tags +
      og_article_bonus m
    (0 + weight * (base_score + quality_bonus), 0 + weight)
  else (0, 0)

/-- The Twitter Card clause of `_calculate_social_meta_completeness`. -/
def socialTwitterStage (m : MetaReport) (st : ℚ × ℚ) : ℚ × ℚ :=
  if m.twitter_tags ≠ [] then
    let weight : ℚ := 0.3
    let essential_tags := ["twitter:card", "twitter:title",
      "twitter:description", "twitter:image"]
    let present_count :=
      (essential_tags.filter (fun t => amem m.twitter_tags t)).length
    (st.1 + weight * ((present_count : ℚ) / (essential_tags.length : ℚ)),
      st.2 + weight)
  else (st.1, st.2)

/-- `_calculate_social_meta_completeness`.  The `has_social_schema`
clause is dead code (the key is never set) and is omitted. -/
def calculate_social_meta_completeness (m : MetaReport) : ℚ :=
  let st := socialTwitterStage m (socialOgStage m)
  if 0 < st.2 then st.1 / max st.2 0.01 else 0

/-- `_analyze_meta_tags`. -/
def analyze_meta_tags (doc : HtmlDoc) : MetaReport :=
  let title : Option String :=
    match doc.titleTagText with
    | some t => if t = "" then none else some (pyStrip t)
    | none => none
  let description : Option String :=
    match findMeta doc "description" with
    | some (some c) => if c = "" then none else some (pyStrip c)
    | _ => none
  let keywords : Option String :=
    match findMeta doc "keywords" with
    | some (some c) => if c = "" then none else some (pyStrip c)
    | _ => none
  let canonical : Option String := doc.canonicalHref.join
  let robots : Option String := (findMeta doc "robots").join
  let viewport : Option String := (findMeta doc "viewport").join
  let og_tags := (doc.propMetas.filter
      (fun kv => kv.1 ≠ "" ∧ pyStartsWith kv.1 "og:")).foldl
    (fun d kv => upsert d kv.1 kv.2) []
  let twitter_tags := (doc.metasWithName.filter
      (fun kv => kv.1 ≠ "" ∧ pyStartsWith kv.1 "twitter:")).foldl
    (fun d kv => upsert d kv.1 kv.2) []
  let article_tags := (doc.propMetas.filter
      (fun kv => kv.1 ≠ "" ∧ pyStartsWith kv.1 "article:")).foldl
    (fun d kv => upsert d kv.1 kv.2) []
  let other_meta := (doc.metasWithName.filter (fun kv =>
      kv.1 ≠ "" ∧
      kv.1 ∉ ["description", "keywords", "robots", "viewport"] ∧
      ¬ pyStartsWith kv.1 "twitter:")).foldl
    (fun d kv => upsert d kv.1 kv.2) []
  let partial_report : MetaReport :=
    { title := title
      title_length := (title.getD "").length
      description := description
      description_length := (description.getD "").length
      keywords := keywords
      canonical := canonical
      robots := robots
      viewport := viewport
      og_tags := og_tags
      twitter_tags := twitter_tags
      article_tags := article_tags
      other_meta := other_meta
      completeness_basic := 0
      completeness_social := 0
      completeness_overall := 0 }
  let basic := calculate_basic_meta_completeness partial_report
  let social := calculate_social_meta_completeness partial_report
  { partial_report with
      completeness_basic := basic
      completeness_social := social
      completeness_overall := basic * 0.7 + social * 0.3 }

/-! ### `_analyze_content_structure` and helpers -/

/-- Non-separator runs of a character list (used for `str.split()` and
for `re.split`/`re.findall` over single-character classes; empty pieces
produced by `re.split` at the ends are dropped by the callers' filters). -/
def splitRuns (isSep : Char → Bool) : List Char → List (List Char)
  | [] => []
  | c :: rest =>
      let groups := splitRuns isSep rest
      if isSep c then groups
      else
        match rest with
        | [] => [[c]]
        | c2 :: _ =>
            if isSep c2 then [c] :: groups
            else
              match groups with
              | [] => [[c]]
              | g :: gs => (c :: g) :: gs

/-- The consecutive-pair loop of `_analyze_heading_hierarchy`: count
skip-level transitions. -/
def hierarchyViolations : List ℕ → ℕ
  | [] => 0
  | [_] => 0
  | a :: b :: rest =>
      (if a < b ∧ 1 < b - a then 1 else 0) + hierarchyViolations (b :: rest)

/-- `_analyze_heading_hierarchy` (0–1).  The Python code builds the
heading list level by level (`for i in range(1, 7): for h in
soup.find_all(f'h{i}')`), so it is grouped by level, not in document
order. -/
def analyze_heading_hierarchy (doc : HtmlDoc) : ℚ :=
  let headings :=
    (doc.headings.filter (fun h => h.1 = 1)) ++
    (doc.headings.filter (fun h => h.1 = 2)) ++
    (doc.headings.filter (fun h => h.1 = 3)) ++
    (doc.headings.filter (fun h => h.1 = 4)) ++
    (doc.headings.filter (fun h => h.1 = 5)) ++
    (doc.headings.filter (fun h => h.1 = 6))
  match headings with
  | [] => 0
  | h0 :: _ =>
      if h0.1 ≠ 1 then 0.3
      else
        let violations := hierarchyViolations (headings.map Prod.fst)
        max 0 (1 - (violations : ℚ) / (headings.length : ℚ))

/-- One question/answer pair of a detected FAQ section.  The schema
method stores the raw JSON values of `name` / `acceptedAnswer.text`;
the HTML methods store strings. -/
structure FaqQuestion where
  question : Json
  answer : Json

/-- One detected FAQ section. -/
structure FaqSection where
  type : String
  questions : List FaqQuestion
  quality : String

/-- `_is_faq_schema`. -/
def is_faq_schema (j : Json) : Bool :=
  match j with
  | .obj fields =>
      (((alookup fields "@type").map (fun v => v.eqStr "FAQPage")).getD false) ||
      (match alookup fields "@type", alookup fields "mainEntity" with
       | some tv, some (.obj mfs) =>
           tv.eqStr "WebPage" &&
           (((alookup mfs "@type").map (fun v => v.eqStr "FAQPage")).getD false)
       | _, _ => false) ||
      (match alookup fields "@graph" with
       | some (.arr items) => items.any (fun it =>
           match it with
           | .obj ifs =>
               ((alookup ifs "@type").map (fun v => v.eqStr "FAQPage")).getD false
           | _ => false)
       | _ => false)
  | _ => false

/-- `process_faq_item` of `_extract_faq_questions`. -/
def process_faq_item (acc : List FaqQuestion) (j : Json) : List FaqQuestion :=
  match j with
  | .obj fields =>
      if ((alookup fields "@type").map (fun v => v.eqStr "Question")).getD false then
        let question := (alookup fields "name").getD (.str "")
        let answer_obj := (alookup fields "acceptedAnswer").getD (.obj [])
        let answer : Json :=
          match answer_obj with
          | .obj afs => (alookup afs "text").getD (.str "")
          | _ => .str ""
        if question.truthy ∧ answer.truthy then acc ++ [⟨question, answer⟩]
        else acc
      else acc
  | _ => acc

/-- `_extract_faq_questions`. -/
def extract_faq_questions (j : Json) : List FaqQuestion :=
  match j with
  | .obj fields =>
      let acc :=
        if (((alookup fields "@type").map (fun v => v.eqStr "FAQPage")).getD
            false) ∧ amem fields "mainEntity" then
          match alookup fields "mainEntity" with
          | some (.arr items) => items.foldl process_faq_item []
          | some other => process_faq_item [] other
          | none => []
        else []
      match alookup fields "@graph" with
      | some (.arr items) =>
          items.foldl (fun acc it =>
            match it with
            | .obj ifs =>
                if (((alookup ifs "@type").map
                    (fun v => v.eqStr "FAQPage")).getD false) ∧
                    amem ifs "mainEntity" then
                  match alookup ifs "mainEntity" with
                  | some (.arr qs) => qs.foldl process_faq_item acc
                  | some other => process_faq_item acc other
                  | none => acc
                else acc
            | _ => acc) acc
      | _ => acc
  | _ => []

/-- The `string=lambda s: s and re.match(r'^Q[:.)]|Question|FAQ', s,
re.I)` filter of FAQ method 3. -/
def matchQHeading (s : String) : Bool :=
  let ls := pyLower s
  s ≠ "" ∧ (pyStartsWith ls "q:" ∨ pyStartsWith ls "q." ∨
    pyStartsWith ls "q)" ∨ pyStartsWith ls "question" ∨
    pyStartsWith ls "faq")

/-- `re.sub(r'^Q[:.)]|\s*', '', question_text).strip()`: the `\s*`
alternative matches at every position, so this removes a leading
case-sensitive `Q:`/`Q.`/`Q)` and then every whitespace character. -/
def cleanQuestionText (s : String) : String :=
  let d := s.data
  let d :=
    if listHasPrefixOf ['Q', ':'] d ∨ listHasPrefixOf ['Q', '.'] d ∨
        listHasPrefixOf ['Q', ')'] d then d.drop 2
    else d
  pyStrip (String.mk (d.filter (fun c => ¬ pySpace c)))

/-- `_detect_faq_sections`: schema method, then `dl` pairs, then
heading patterns; all matches are appended, never deduplicated. -/
def detect_faq_sections (doc : HtmlDoc) : List FaqSection :=
  let m1 := doc.ldJsonScripts.foldl (fun acc blk =>
    match blk with
    | .ok j =>
        if is_faq_schema j then
          acc ++ [⟨"schema", extract_faq_questions j, "high"⟩]
        else acc
    | .error _ => acc) []
  let m2 := doc.dls.foldl (fun acc dl =>
    if 1 < dl.1.length ∧ dl.1.length = dl.2.length then
      let questions := (dl.1.zip dl.2).map (fun p =>
        (⟨.str (pyStrip p.1), .str (pyStrip p.2)⟩ : FaqQuestion))
      if !questions.isEmpty then acc ++ [⟨"dl_list", questions, "medium"⟩]
      else acc
    else acc) m1
  (doc.qhBlocks.filter (fun b => matchQHeading b.1)).foldl (fun acc b =>
    let question_text := pyStrip b.1
    match b.2 with
    | some ans =>
        let answer_text := pyStrip ans
        if answer_text ≠ "" ∧ 15 < answer_text.length then
          acc ++ [⟨"heading_pattern",
            [⟨.str (cleanQuestionText question_text), .str answer_text⟩],
            "low"⟩]
        else acc
    | none => acc) m2

/-- `vowels = "aeiouy"`. -/
def isVowelChar (c : Char) : Bool :=
  ['a', 'e', 'i', 'o', 'u', 'y'].contains c

/-- `_count_syllables`. -/
def count_syllables (w : String) : ℕ :=
  let word := (pyLower w).data.filter (fun c => 'a' ≤ c ∧ c ≤ 'z')
  if word.isEmpty then 0
  else
    let fold := word.foldl (fun (acc : ℕ × Bool) c =>
      let iv := isVowelChar c
      (if iv ∧ ¬ acc.2 then acc.1 + 1 else acc.1, iv)) (0, false)
    let count := fold.1
    let penult_not_vowel : Bool :=
      match word.get? (word.length - 2) with
      | some c => ¬ isVowelChar c
      | none => false
    let count :=
      if (word.getLast? == some 'e') && decide (2 < word.length) &&
          penult_not_vowel then
        count - 1
      else count
    max 1 count

/-- The `readability_score` sub-report. -/
structure Readability where
  flesch_kincaid_grade : ℚ
  avg_sentence_length : ℚ
  avg_word_length : ℚ
  avg_syllables_per_word : ℚ

/-- `_calculate_readability`.  Sentences are the runs between
`[.!?]+` separators, stripped and filtered nonempty. -/
def calculate_readability (text : String) : Readability :=
  let t := pyStrip (String.mk (collapseWsChars text.data))
  let sentences := ((splitRuns (fun c => c = '.' ∨ c = '!' ∨ c = '?')
      t.data).map (fun l => pyStrip (String.mk l))).filter (fun s => s ≠ "")
  let words := pySplitWs t
  let word_count := words.length
  let syllable_count := (words.map count_syllables).sum
  if sentences.isEmpty ∨ words.isEmpty then ⟨0, 0, 0, 0⟩
  else
    let avg_sentence_length : ℚ := (word_count : ℚ) / (sentences.length : ℚ)
    let avg_word_length : ℚ :=
      ((words.map String.length).sum : ℚ) / (word_count : ℚ)
    let avg_syllables_per_word : ℚ := (syllable_count : ℚ) / (word_count : ℚ)
    let fk := 0.39 * avg_sentence_length + 11.8 * avg_syllables_per_word -
      15.59
    ⟨pyRound1 fk, pyRound1 avg_sentence_length, pyRound1 avg_word_length,
      pyRound1 avg_syllables_per_word⟩

/-- The `stop_words` set of `_analyze_keyword_density`. -/
def stop_words : List String :=
  ["the", "and", "a", "an", "in", "on", "at", "to", "for", "of",
   "with", "by", "is", "are", "was", "were", "be", "been", "being",
   "this", "that", "these", "those", "it", "its", "from", "as"]

/-- One `top_keywords` entry. -/
structure KeywordInfo where
  count : ℕ
  density : ℚ

/-- The `keyword_density` sub-report. -/
structure KeywordDensity where
  top_keywords : List (String × KeywordInfo)
  total_words : ℕ
  unique_words : ℕ

/-- `_analyze_keyword_density`.  `re.findall(r'\b\w+\b', text)` is the
list of maximal word-character runs; `sorted(..., reverse=True)` is the
stable descending sort. -/
def analyze_keyword_density (text : String) : KeywordDensity :=
  let t := pyLower (pyStrip (String.mk (collapseWsChars text.data)))
  let allWords := (splitRuns (fun c => ¬ pyWordChar c) t.data).map String.mk
  let words := allWords.filter (fun w => w ∉ stop_words)
  let word_freq := words.foldl (fun d w =>
    if 2 < w.length then upsert d w ((alookup d w).getD 0 + 1) else d) []
  let sorted_keywords := stableSort (fun a b => b.2 ≤ a.2) word_freq
  let top_keywords := sorted_keywords.take 10
  let total_words := words.length
  let kd : List (String × KeywordInfo) := top_keywords.map (fun kv =>
    (kv.1, ⟨kv.2,
      if total_words ≠ 0 then
        pyRound2 (((kv.2 : ℚ) / (total_words : ℚ)) * 100)
      else 0⟩))
  ⟨kd, total_words, word_freq.length⟩

/-- `_analyze_semantic_elements`. -/
def analyze_semantic_elements (doc : HtmlDoc) : List (String × ℕ) :=
  ["header", "footer", "main", "article", "section", "nav", "aside",
   "figure", "figcaption", "time", "mark", "details", "summary"].foldl
    (fun acc e =>
      let c := doc.tagCount e
      if 0 < c then acc ++ [(e, c)] else acc) []

/-- `_detect_structured_patterns`. -/
def detect_structured_patterns (doc : HtmlDoc) : List (String × ℕ) :=
  let patterns : List (String × ℕ) := []
  let patterns :=
    if 0 < doc.dls.length then
      patterns ++ [("definition_lists", doc.dls.length),
        ("definition_terms", doc.tagCount "dt"),
        ("definition_descriptions", doc.tagCount "dd")]
    else patterns
  let patterns :=
    if 0 < doc.tagCount "blockquote" then
      patterns ++ [("blockquotes", doc.tagCount "blockquote")]
    else patterns
  let code_blocks := doc.tagCount "pre" + doc.tagCount "code"
  let patterns :=
    if 0 < code_blocks then patterns ++ [("code_blocks", code_blocks)]
    else patterns
  let patterns :=
    if 0 < doc.tablesWithTh then
      patterns ++ [("tables_with_headers", doc.tablesWithTh)]
    else patterns
  let patterns :=
    if 0 < doc.figuresWithCaption then
      patterns ++ [("figures_with_captions", doc.figuresWithCaption)]
    else patterns
  let patterns :=
    if 0 < doc.tagCount "details" then
      patterns ++ [("expandable_sections", doc.tagCount "details")]
    else patterns
  match doc.accordionSelectorCounts.find? (fun c => 0 < c) with
  | some c => patterns ++ [("accordion_elements", c)]
  | none => patterns

/-- `_calculate_content_diversity` (0–1). -/
def calculate_content_diversity (headings : List (String × ℕ))
    (paragraph_count list_count table_count faq_count image_count : ℕ)
    (semantic_elements : List (String × ℕ)) : ℚ :=
  let heading_types := (headings.filter (fun kv => 0 < kv.2)).length
  let heading_score := min 0.2 ((heading_types : ℚ) * 0.04)
  let paragraph_score := min 0.15 ((paragraph_count : ℚ) / 50 * 0.15)
  let list_score := min 0.15 ((list_count : ℚ) / 5 * 0.15)
  let table_score := min 0.1 ((table_count : ℚ) / 2 * 0.1)
  let faq_score := min 0.15 ((faq_count : ℚ) / 3 * 0.15)
  let image_score := min 0.1 ((image_count : ℚ) / 10 * 0.1)
  let semantic_count := (semantic_elements.map Prod.snd).sum
  let semantic_score := min 0.15 ((semantic_count : ℚ) / 10 * 0.15)
  heading_score + paragraph_score + list_score + table_score + faq_score +
    image_score + semantic_score

/-! ### `_analyze_entity_mentions`: the four `re.findall` scanners

Each matcher tries its pattern at one position of the remaining input
(the leading `\b` is handled by the scanner's previous-character state)
and on success returns the matched characters and the rest of the
input.  Greediness of the Python patterns is resolved as in the regex
engine; where backtracking can occur (the organization middle class) it
is enumerated from the longest candidate down. -/

/-- `\b[A-Z][a-z]+\s+[A-Z][a-z]+\b` at one position. -/
def matchPeopleAt (l : List Char) : Option (List Char × List Char) :=
  match l with
  | [] => none
  | c :: rest =>
      if c.isUpper then
        let sp1 := rest.span (fun ch => ch.isLower)
        if sp1.1.isEmpty then none
        else
          let sp2 := sp1.2.span (fun ch => pySpace ch)
          if sp2.1.isEmpty then none
          else
            match sp2.2 with
            | c2 :: r3 =>
                if c2.isUpper then
                  let sp3 := r3.span (fun ch => ch.isLower)
                  if sp3.1.isEmpty then none
                  else
                    let boundary :=
                      match sp3.2 with
                      | [] => true
                      | c3 :: _ => ¬ pyWordChar c3
                    if boundary then
                      some (c :: sp1.1 ++ sp2.1 ++ c2 :: sp3.1, sp3.2)
                    else none
                else none
            | [] => none
      else none

/-- The suffix alternatives of the organization pattern, in the
pattern's order (`Corp` before `Corporation`, with the trailing `\b`
deciding which applies). -/
def orgSuffixes : List String :=
  ["Inc", "LLC", "Ltd", "Corp", "Corporation", "Company"]

/-- Try `\s+(?:Inc|LLC|Ltd|Corp|Corporation|Company)\b` at a position
(the whitespace run must be maximal since every suffix starts with a
letter). -/
def orgTryTail (afterMiddle : List Char) :
    Option (List Char × List Char × List Char) :=
  let sp := afterMiddle.span (fun ch => pySpace ch)
  if sp.1.isEmpty then none
  else
    match orgSuffixes.find? (fun suf =>
        listHasPrefixOf suf.data sp.2 &&
        (match sp.2.drop suf.data.length with
         | [] => true
         | c :: _ => ¬ pyWordChar c)) with
    | some suf => some (sp.1, suf.data, sp.2.drop suf.data.length)
    | none => none

/-- Greedy backtracking over the length of the `[A-Za-z0-9\s]+` middle
of the organization pattern, from `k` characters down to 1. -/
def orgTryK (c : Char) (runChars tail : List Char) : ℕ → Option (List Char × List Char)
  | 0 => none
  | k + 1 =>
      let afterMiddle := runChars.drop (k + 1) ++ tail
      match orgTryTail afterMiddle with
      | some (sp, suf, rest) =>
          some (c :: runChars.take (k + 1) ++ sp ++ suf, rest)
      | none => orgTryK c runChars tail k

/-- `\b[A-Z][A-Za-z0-9\s]+\s+(?:Inc|LLC|Ltd|Corp|Corporation|Company)\b`
at one position. -/
def matchOrgAt (l : List Char) : Option (List Char × List Char) :=
  match l with
  | [] => none
  | c :: rest =>
      if c.isUpper then
        let sp := rest.span (fun ch => ch.isAlphanum ∨ pySpace ch)
        orgTryK c sp.1 sp.2 sp.1.length
      else none

/-- `\b[A-Z][a-z]+,\s+[A-Z]{2}\b` ("City, ST") at one position. -/
def matchLoc1At (l : List Char) : Option (List Char × List Char) :=
  match l with
  | [] => none
  | c :: rest =>
      if c.isUpper then
        let sp1 := rest.span (fun ch => ch.isLower)
        if sp1.1.isEmpty then none
        else
          match sp1.2 with
          | ',' :: r2 =>
              let sp2 := r2.span (fun ch => pySpace ch)
              if sp2.1.isEmpty then none
              else
                match sp2.2 with
                | a :: b :: r3 =>
                    let boundary :=
                      match r3 with
                      | [] => true
                      | d :: _ => ¬ pyWordChar d
                    if a.isUpper && b.isUpper && boundary then
                      some (c :: sp1.1 ++ ',' :: sp2.1 ++ [a, b], r3)
                    else none
                | _ => none
          | _ => none
      else none

/-- `\b[A-Z][a-z]+,\s+[A-Z][a-z]+\b` ("City, Country") at one position. -/
def matchLoc2At (l : List Char) : Option (List Char × List Char) :=
  match l with
  | [] => none
  | c :: rest =>
      if c.isUpper then
        let sp1 := rest.span (fun ch => ch.isLower)
        if sp1.1.isEmpty then none
        else
          match sp1.2 with
          | ',' :: r2 =>
              let sp2 := r2.span (fun ch => pySpace ch)
              if sp2.1.isEmpty then none
              else
                match sp2.2 with
                | c2 :: r3 =>
                    if c2.isUpper then
                      let sp3 := r3.span (fun ch => ch.isLower)
                      if sp3.1.isEmpty then none
                      else
                        let boundary :=
                          match sp3.2 with
                          | [] => true
                          | d :: _ => ¬ pyWordChar d
                        if boundary then
                          some (c :: sp1.1 ++ ',' :: sp2.1 ++ c2 :: sp3.1,
                            sp3.2)
                        else none
                    else none
                | [] => none
          | _ => none
      else none

/-- `\b[A-Z][a-z]+\s+(?:[A-Z0-9]{1,4}-[A-Z0-9]{1,4}|[A-Z0-9]{3,10})\b`
at one position.  Since `[A-Z0-9]` runs are maximal, the bounded
quantifiers can only succeed by consuming a whole run of admissible
length. -/
def matchProductAt (l : List Char) : Option (List Char × List Char) :=
  match l with
  | [] => none
  | c :: rest =>
      if c.isUpper then
        let sp1 := rest.span (fun ch => ch.isLower)
        if sp1.1.isEmpty then none
        else
          let sp2 := sp1.2.span (fun ch => pySpace ch)
          if sp2.1.isEmpty then none
          else
            let upd := fun (ch : Char) => ch.isUpper ∨ ch.isDigit
            let r1 := sp2.2.span upd
            let branch1 : Option (List Char × List Char) :=
              if 1 ≤ r1.1.length ∧ r1.1.length ≤ 4 then
                match r1.2 with
                | '-' :: r2 =>
                    let r3 := r2.span upd
                    let boundary :=
                      match r3.2 with
                      | [] => true
                      | d :: _ => ¬ pyWordChar d
                    if decide (1 ≤ r3.1.length) &&
                        decide (r3.1.length ≤ 4) && boundary then
                      some (r1.1 ++ '-' :: r3.1, r3.2)
                    else none
                | _ => none
              else none
            match branch1 with
            | some (part, rest2) =>
                some (c :: sp1.1 ++ sp2.1 ++ part, rest2)
            | none =>
                let boundary :=
                  match r1.2 with
                  | [] => true
                  | d :: _ => ¬ pyWordChar d
                if decide (3 ≤ r1.1.length) &&
                    decide (r1.1.length ≤ 10) && boundary then
                  some (c :: sp1.1 ++ sp2.1 ++ r1.1, r1.2)
                else none
      else none

/-- Non-overlapping left-to-right scan (`re.findall`): on a match,
resume after it; otherwise advance one character.  The fuel is an upper
bound on the number of steps (each step consumes at least one
character); the previous-character word flag realises `\b`. -/
def scanMatches (matchAt : List Char → Option (List Char × List Char)) :
    ℕ → Bool → List Char → List String
  | 0, _, _ => []
  | _ + 1, _, [] => []
  | fuel + 1, prevWord, c :: rest =>
      if ¬ prevWord then
        match matchAt (c :: rest) with
        | some (m, r) =>
            -- every pattern ends in a word character, so the flag is set
            String.mk m :: scanMatches matchAt fuel true r
        | none => scanMatches matchAt fuel (pyWordChar c) rest
      else scanMatches matchAt fuel (pyWordChar c) rest

/-- `re.findall(pattern, s)` for the entity patterns. -/
def reFindAll (matchAt : List Char → Option (List Char × List Char))
    (s : String) : List String :=
  scanMatches matchAt (s.data.length + 1) false s.data

/-- The `entity_mentions` sub-report. -/
structure EntityMentions where
  people : List String
  organizations : List String
  locations : List String
  products : List String

/-- `common_phrases`, the people false-positive filter. -/
def common_phrases : List String :=
  ["New York", "United States", "Home Page", "Privacy Policy"]

/-- `_analyze_entity_mentions`. -/
def analyze_entity_mentions (text : String) : EntityMentions :=
  let t := String.mk (collapseWsChars text.data)
  let potential_names := reFindAll matchPeopleAt t
  { people := (potential_names.take 10).filter (fun n => n ∉ common_phrases)
    organizations := (reFindAll matchOrgAt t).take 10
    locations := ((reFindAll matchLoc1At t) ++ (reFindAll matchLoc2At t)).take 10
    products := (reFindAll matchProductAt t).take 10 }

/-! ### The content report -/

/-- The `content_structure` report (`headings` is the `h1`–`h6` count
dict). -/
structure ContentReport where
  headings : List (String × ℕ)
  heading_hierarchy_score : ℚ
  paragraphs : ℕ
  avg_paragraph_length : ℚ
  lists : ℕ
  list_items : ℕ
  tables : ℕ
  faq_sections : List FaqSection
  faq_count : ℕ
  images : ℕ
  images_with_alt : ℕ
  word_count : ℕ
  readability_score : Readability
  keyword_density : KeywordDensity
  semantic_elements : List (String × ℕ)
  structured_patterns : List (String × ℕ)
  content_diversity_score : ℚ
  entity_mentions : EntityMentions

/-- `_analyze_content_structure`. -/
def analyze_content_structure (doc : HtmlDoc) : ContentReport :=
  let hcount := fun i => (doc.headings.filter (fun h => h.1 = i)).length
  let headings := [("h1", hcount 1), ("h2", hcount 2), ("h3", hcount 3),
    ("h4", hcount 4), ("h5", hcount 5), ("h6", hcount 6)]
  let paragraph_count := doc.paragraphTexts.length
  let paragraph_lengths := doc.paragraphTexts.map pyWordCount
  let avg_paragraph_length : ℚ :=
    (paragraph_lengths.sum : ℚ) / (max paragraph_lengths.length 1 : ℕ)
  let faq_sections := detect_faq_sections doc
  let semantic_elements := analyze_semantic_elements doc
  { headings := headings
    heading_hierarchy_score := analyze_heading_hierarchy doc
    paragraphs := paragraph_count
    avg_paragraph_length := avg_paragraph_length
    lists := doc.tagCount "ul" + doc.tagCount "ol"
    list_items := doc.tagCount "li"
    tables := doc.tagCount "table"
    faq_sections := faq_sections
    faq_count := faq_sections.length
    images := doc.imageAlts.length
    images_with_alt := (doc.imageAlts.filter truthyStr).length
    word_count := pyWordCount doc.text
    readability_score := calculate_readability doc.text
    keyword_density := analyze_keyword_density doc.text
    semantic_elements := semantic_elements
    structured_patterns := detect_structured_patterns doc
    content_diversity_score := calculate_content_diversity headings
      paragraph_count (doc.tagCount "ul" + doc.tagCount "ol")
      (doc.tagCount "table") faq_sections.length doc.imageAlts.length
      semantic_elements
    entity_mentions := analyze_entity_mentions doc.text }

/-! ### `_analyze_technical_factors` -/

/-- Suffix after the first occurrence of `sub` (nonempty). -/
def afterFirstSub (sub : List Char) : List Char → Option (List Char)
  | [] => none
  | c :: rest =>
      if listHasPrefixOf sub (c :: rest) then
        some ((c :: rest).drop sub.length)
      else afterFirstSub sub rest

/-- `urllib.parse.urlparse(url).netloc`, modelled for the common URL
shapes: a `scheme://` prefix (scheme = letter then letters, digits,
`+`, `-`, `.`) or a protocol-relative `//` yields the host part up to
the first `/`, `?` or `#`; anything else has an empty netloc.  Exotic
generic-URI corner cases of `urlparse` are not modelled. -/
def netlocOf (url : String) : String :=
  let d := url.data
  let after : Option (List Char) :=
    match d with
    | [] => none
    | c0 :: _ =>
        if c0.isAlpha then
          let sp := d.span (fun c =>
            c.isAlphanum ∨ c = '+' ∨ c = '-' ∨ c = '.')
          if listHasPrefixOf [':', '/', '/'] sp.2 then some (sp.2.drop 3)
          else none
        else if listHasPrefixOf ['/', '/'] d then some (d.drop 2)
        else none
  match after with
  | some rest =>
      String.mk (rest.takeWhile (fun c => ¬ (c = '/' ∨ c = '?' ∨ c = '#')))
  | none => ""

/-- The link-counting loop of `_analyze_technical_factors`:
`(internal, external)`. -/
def countLinks (hrefs : List String) (base_domain : String) : ℕ × ℕ :=
  hrefs.foldl (fun (acc : ℕ × ℕ) href =>
    if href = "" ∨ pyStartsWith href "#" ∨ pyStartsWith href "javascript:" then
      acc
    else
      let netloc := netlocOf href
      if netloc = "" ∨ netloc = base_domain then (acc.1 + 1, acc.2)
      else (acc.1, acc.2 + 1)) (0, 0)

/-- `_check_mobile_friendly`.  Note the final `return viewport is not
None`, reached only when the viewport check passed, so it returns
`True`. -/
def check_mobile_friendly (doc : HtmlDoc) : Bool :=
  match findMeta doc "viewport" with
  | none => false
  | some content =>
      if ¬ strContains (content.getD "") "width=device-width" then false
      else if doc.styleStrings.any (fun s =>
          match s with
          | some str => strContains str "@media"
          | none => false) then true
      else if doc.stylesheetMediaAttrs.any (fun m => strContains m "screen") then
        true
      else true

/-- The `technical_factors` report. -/
structure TechnicalReport where
  page_size_kb : ℚ
  load_time_ms : ℚ
  ssl_enabled : Bool
  mobile_friendly : Bool
  structured_data_valid : Bool
  has_sitemap : Bool
  has_robots_txt : Bool
  internal_links : ℕ
  external_links : ℕ
  broken_links : List String

/-- Outcomes of the `HEAD /sitemap.xml` and `HEAD /robots.txt` probes
(`status_code == 200`; any exception leaves `False`). -/
structure ProbeResults where
  sitemap_ok : Bool
  robots_ok : Bool

/-- `_analyze_technical_factors`, with the transport metadata
(`len(response.content)`, `response.elapsed`) and probe outcomes
injected. -/
def analyze_technical_factors (doc : HtmlDoc) (domain : String)
    (content_length : ℕ) (elapsed_seconds : ℚ) (probes : ProbeResults) :
    TechnicalReport :=
  let links := countLinks doc.anchorHrefs (netlocOf domain)
  { page_size_kb := (content_length : ℚ) / 1024
    load_time_ms := elapsed_seconds * 1000
    ssl_enabled := pyStartsWith domain "https://"
    mobile_friendly := check_mobile_friendly doc
    structured_data_valid := true
    has_sitemap := probes.sitemap_ok
    has_robots_txt := probes.robots_ok
    internal_links := links.1
    external_links := links.2
    broken_links := [] }

/-! ### The component scores and the overall score -/

/-- `_calculate_schema_score` (0–100). -/
def calculate_schema_score (schema_analysis : SchemaReport) : ℤ :=
  let score : ℤ := 0
  let score :=
    if schema_analysis.found then
      score + 15 +
        (if 3 ≤ schema_analysis.count then 15
         else if schema_analysis.count = 2 then 10
         else 5)
    else score
  let score := if schema_analysis.hv_organization then score + 10 else score
  let score := if schema_analysis.hv_product then score + 10 else score
  let score := if schema_analysis.hv_faq then score + 10 else score
  let score := if schema_analysis.hv_breadcrumb then score + 5 else score
  let score := if schema_analysis.hv_article then score + 5 else score
  let pc := schema_analysis.property_count
  let score := score +
    (if 20 ≤ pc then 30
     else if 15 ≤ pc then 25
     else if 10 ≤ pc then 20
     else if 5 ≤ pc then 10
     else if 0 < pc then 5
     else 0)
  min score 100

/-- `_calculate_meta_score` (0–100). -/
def calculate_meta_score (m : MetaReport) : ℤ :=
  let score : ℤ := 0
  let score := score + pyInt (m.completeness_basic * 50)
  let score := score + pyInt (m.completeness_social * 30)
  let score := score +
    (if truthyStr m.title then
      let tl := m.title_length
      if 50 ≤ tl ∧ tl ≤ 60 then 10
      else if 40 ≤ tl ∧ tl ≤ 70 then 7
      else if 30 ≤ tl ∧ tl ≤ 80 then 5
      else 2
    else 0)
  let score := score +
    (if truthyStr m.description then
      let dl := m.description_length
      if 140 ≤ dl ∧ dl ≤ 160 then 10
      else if 120 ≤ dl ∧ dl ≤ 180 then 7
      else if 100 ≤ dl ∧ dl ≤ 200 then 5
      else 2
    else 0)
  min score 100

/-- `_calculate_content_score` (0–100). -/
def calculate_content_score (c : ContentReport) : ℤ :=
  let score : ℤ := 0
  let h1 := (alookup c.headings "h1").getD 0
  let score :=
    if 0 < h1 then score + 10 + pyInt (c.heading_hierarchy_score * 15)
    else score
  let wc := c.word_count
  let score := score +
    (if 1500 ≤ wc then 20
     else if 1000 ≤ wc then 15
     else if 500 ≤ wc then 10
     else if 300 ≤ wc then 5
     else 0)
  let score := score +
    (if 3 ≤ c.lists then 10 else if 0 < c.lists then 5 else 0)
  let score := score +
    (if 10 ≤ c.list_items then 5 else if 0 < c.list_items then 2 else 0)
  let score := if 0 < c.tables then score + 5 else score
  let score := score +
    (if 3 ≤ c.faq_count then 20
     else if c.faq_count = 2 then 15
     else if c.faq_count = 1 then 10
     else 0)
  let score :=
    if 0 < c.images then
      score + pyInt (((c.images_with_alt : ℚ) / (c.images : ℚ)) * 10)
    else score
  let g := c.readability_score.flesch_kincaid_grade
  let score := score +
    (if 6 ≤ g ∧ g ≤ 10 then 5 else if 5 ≤ g ∧ g ≤ 12 then 3 else 0)
  min score 100

/-- `_calculate_technical_score` (0–100). -/
def calculate_technical_score (t : TechnicalReport) : ℤ :=
  let score : ℤ := 0
  let score := if t.ssl_enabled then score + 20 else score
  let score := if t.mobile_friendly then score + 20 else score
  let p := t.page_size_kb
  let score := score +
    (if p ≤ 500 then 10
     else if p ≤ 1000 then 7
     else if p ≤ 2000 then 5
     else if p ≤ 3000 then 2
     else 0)
  let lt := t.load_time_ms
  let score := score +
    (if lt ≤ 500 then 10
     else if lt ≤ 1000 then 7
     else if lt ≤ 2000 then 5
     else if lt ≤ 3000 then 2
     else 0)
  let score := if t.has_sitemap then score + 10 else score
  let score := if t.has_robots_txt then score + 10 else score
  let il := t.internal_links
  let score := score +
    (if 20 ≤ il then 10
     else if 10 ≤ il then 7
     else if 5 ≤ il then 5
     else if 0 < il then 2
     else 0)
  let el := t.external_links
  let score := score +
    (if 5 ≤ el then 10 else if 3 ≤ el then 7 else if 1 ≤ el then 5 else 0)
  min score 100

/-- `_calculate_overall_score` (0–100): fixed weights, synergy bonuses,
`min(100, ...)`, then Python `round`. -/
def calculate_overall_score (schema_score meta_score content_score
    technical_score : ℤ) : ℤ :=
  let weighted_score : ℚ :=
    (schema_score : ℚ) * 0.35 + (meta_score : ℚ) * 0.25 +
    (content_score : ℚ) * 0.30 + (technical_score : ℚ) * 0.10
  let bonus : ℚ :=
    (if 80 ≤ schema_score ∧ 80 ≤ content_score then 5 else 0) +
    (if 70 ≤ schema_score ∧ 70 ≤ meta_score ∧ 70 ≤ content_score ∧
        70 ≤ technical_score then 3 else 0) +
    (if 90 ≤ meta_score ∧ 70 ≤ schema_score then 2 else 0)
  let final_score := min 100 (weighted_score + bonus)
  pyRound final_score

/-! ### `_generate_recommendations` -/

/-- One recommendation record.  The error-path recommendations of
`audit_website` have no `implementation` key, hence the `Option`. -/
structure Recommendation where
  priority : String
  category : String
  issue : String
  recommendation : String
  implementation : Option String
  deriving DecidableEq

/-- The `priority_order` dict (the fallback 3 is unreachable: every
generated priority is one of the three keys, and any other value would
raise `KeyError` in Python). -/
def priority_order (p : String) : ℕ :=
  if p = "high" then 0 else if p = "medium" then 1 else if p = "low" then 2
  else 3

/-- `re.search(r'\s[\|\-\\]\s', title)`: some whitespace, then `|`, `-`
or `\`, then whitespace. -/
def hasTitleSeparator : List Char → Bool
  | a :: b :: c :: rest =>
      (pySpace a && (b == '|' || b == '-' || b == '\\') && pySpace c) ||
        hasTitleSeparator (b :: c :: rest)
  | _ => false

/-- The rule evaluations of `_generate_recommendations`, in source
order, before the final priority sort. -/
def generate_recommendations_raw (schema_org : SchemaReport)
    (meta_tags : MetaReport) (content : ContentReport)
    (technical : TechnicalReport) : List Recommendation :=
  let schema_recs : List Recommendation :=
    if ¬ schema_org.found then
      [⟨"high", "schema", "No Schema.org markup found",
        "Implement JSON-LD Schema.org markup for your organization and main content types",
        some "Add a JSON-LD script with Organization schema to your homepage with essential properties like name, url, logo, and description"⟩]
    else
      (if schema_org.quality_score < 50 ∧ schema_org.found then
        [⟨"high", "schema", "Low quality Schema.org implementation",
          "Enhance existing Schema.org markup with more properties and better structure",
          some "Add missing properties to your schemas and ensure proper nesting of entities"⟩]
      else []) ++
      (if ¬ schema_org.hv_organization then
        [⟨"high", "schema", "Missing Organization schema",
          "Add Organization or LocalBusiness schema to improve entity recognition in LLMs",
          some "Implement JSON-LD with your organization details including name, logo, url, description, and sameAs links to social profiles"⟩]
      else []) ++
      (if ¬ schema_org.hv_product ∧ ¬ schema_org.hv_article ∧
          ¬ schema_org.hv_howto then
        [⟨"medium", "schema", "Missing content type schemas",
          "Add appropriate schemas for your main content (Product, Article, HowTo, etc.)",
          some "Identify your primary content type and implement the corresponding Schema.org type with all required properties"⟩]
      else []) ++
      (if ¬ schema_org.hv_faq ∧ content.faq_count = 0 then
        [⟨"medium", "schema", "No FAQ content or schema",
          "Add an FAQ section with FAQPage schema to improve LLM visibility and question answering",
          some "Create a list of common questions and answers about your products/services with FAQPage schema markup"⟩]
      else []) ++
      (match schema_org.completeness.find? (fun kv => kv.2 < 0.7) with
       | some kv =>
          [⟨"medium", "schema", "Incomplete " ++ kv.1 ++ " schema properties",
            "Add missing properties to your " ++ kv.1 ++ " schema",
            some ("Enhance your " ++ kv.1 ++
              " schema with additional properties like description, image, and relevant dates")⟩]
       | none => [])
  let meta_recs : List Recommendation :=
    (if ¬ truthyStr meta_tags.title then
      [⟨"high", "meta", "Missing title tag",
        "Add a descriptive title tag (50-65 characters) for better LLM understanding",
        some "Create a title that includes your brand name, primary keyword, and value proposition"⟩]
    else if meta_tags.title_length < 30 ∨ 70 < meta_tags.title_length then
      [⟨"medium", "meta",
        "Suboptimal title length (" ++ natRepr meta_tags.title_length ++
          " characters)",
        "Adjust title length to 50-65 characters for optimal LLM visibility",
        some "Revise your title to be more descriptive and keyword-rich while staying within the recommended length"⟩]
    else []) ++
    (if truthyStr meta_tags.title ∧
        ¬ hasTitleSeparator (meta_tags.title.getD "").data then
      [⟨"low", "meta", "Title lacks proper structure",
        "Format title with brand name separator (e.g., 'Primary Keyword | Brand Name')",
        some "Restructure your title to follow the pattern 'Primary Content | Brand Name' for better LLM recognition"⟩]
    else []) ++
    (if ¬ truthyStr meta_tags.description then
      [⟨"high", "meta", "Missing meta description",
        "Add a descriptive meta description (140-170 characters) for LLM context understanding",
        some "Write a compelling description that summarizes your page content with relevant keywords and a call to action"⟩]
    else if meta_tags.description_length < 100 ∨
        180 < meta_tags.description_length then
      [⟨"medium", "meta",
        "Suboptimal description length (" ++
          natRepr meta_tags.description_length ++ " characters)",
        "Adjust description length to 140-170 characters for optimal LLM visibility",
        some "Revise your description to be more informative and keyword-rich while staying within the recommended length"⟩]
    else []) ++
    (if truthyStr meta_tags.description ∧
        pyWordCount (meta_tags.description.getD "") < 15 then
      [⟨"medium", "meta", "Low-quality meta description",
        "Improve meta description with more context and keywords",
        some "Enhance your description with specific details about your content, benefits, and relevant keywords"⟩]
    else []) ++
    (if meta_tags.og_tags = [] then
      [⟨"medium", "meta", "Missing Open Graph tags",
        "Add Open Graph meta tags for better social sharing and LLM context",
        some "Implement og:title, og:description, og:image, og:url, and og:type tags"⟩]
    else if ¬ amem meta_tags.og_tags "og:image" then
      [⟨"medium", "meta", "Missing og:image tag",
        "Add og:image tag for visual representation in LLM training data",
        some "Add an og:image tag with a high-quality, relevant image (minimum 1200x630 pixels)"⟩]
    else [])
  let content_recs : List Recommendation :=
    (if (alookup content.headings "h1").getD 0 = 0 then
      [⟨"high", "content", "Missing H1 heading",
        "Add a single H1 heading that clearly describes your page content for LLM understanding",
        some "Create an H1 tag that includes your primary keyword and matches your title tag intent"⟩]
    else []) ++
    (if content.heading_hierarchy_score < 0.7 then
      [⟨"medium", "content", "Poor heading hierarchy",
        "Improve heading structure with proper H1-H6 hierarchy for better LLM content parsing",
        some "Ensure headings follow a logical structure without skipping levels (e.g., H1  H2  H3)"⟩]
    else []) ++
    (if content.word_count < 300 then
      [⟨"high", "content", "Insufficient content length",
        "Expand content to at least 500-800 words for better LLM visibility and context",
        some "Add more comprehensive information about your topic, addressing common questions and including relevant keywords"⟩]
    else []) ++
    (if content.lists = 0 then
      [⟨"medium", "content", "No list elements found",
        "Add bulleted or numbered lists to improve content structure for LLM parsing",
        some "Convert appropriate content sections into lists for better readability and structured data extraction by LLMs"⟩]
    else []) ++
    (if content.content_diversity_score < 0.5 then
      [⟨"medium", "content", "Low content diversity",
        "Add more diverse content elements for better LLM understanding",
        some "Include a mix of paragraphs, lists, tables, images with alt text, and quotes to create richer content"⟩]
    else []) ++
    (if content.semantic_elements.length < 3 then
      [⟨"medium", "content", "Limited use of semantic HTML elements",
        "Add semantic HTML5 elements to improve content structure for LLMs",
        some "Use elements like <article>, <section>, <figure>, <figcaption>, and <aside> to better organize content"⟩]
    else []) ++
    (if content.faq_count = 0 then
      [⟨"medium", "content", "No FAQ sections found",
        "Add an FAQ section to improve LLM visibility and question answering capabilities",
        some "Create a list of 5-10 common questions and detailed answers about your products/services, using proper HTML structure (dl/dt/dd or h3+p patterns)"⟩]
    else []) ++
    (if content.entity_mentions.organizations = [] ∧
        content.entity_mentions.products = [] then
      [⟨"low", "content", "Limited entity mentions",
        "Include more named entities in your content for better LLM context",
        some "Mention specific organizations, products, people, or locations relevant to your content"⟩]
    else []) ++
    (if 0 < content.images ∧
        (content.images_with_alt : ℚ) / (content.images : ℚ) < 0.5 then
      [⟨"medium", "content", "Images missing alt text",
        "Add descriptive alt text to all images for LLM context understanding",
        some "Write concise, descriptive alt text that explains the image content, context, and relevance to the topic"⟩]
    else []) ++
    (if content.structured_patterns = [] then
      [⟨"medium", "content", "Limited structured content patterns",
        "Add more structured content patterns for better LLM parsing",
        some "Include definition lists, tables with headers, blockquotes, or code samples where appropriate"⟩]
    else [])
  let technical_recs : List Recommendation :=
    (if ¬ technical.ssl_enabled then
      [⟨"high", "technical", "SSL not enabled",
        "Enable HTTPS for your website to improve LLM trust signals",
        some "Install an SSL certificate and configure your server to use HTTPS, which is a key trust signal for LLMs"⟩]
    else []) ++
    (if ¬ technical.mobile_friendly then
      [⟨"high", "technical", "Not mobile-friendly",
        "Implement responsive design for mobile devices to improve LLM visibility",
        some "Add viewport meta tag and ensure your CSS supports responsive layouts, as mobile-friendliness is a key quality signal for LLMs"⟩]
    else []) ++
    (if 2000 < technical.page_size_kb then
      [⟨"medium", "technical",
        "Large page size (" ++ formatFixed1 technical.page_size_kb ++ " KB)",
        "Optimize page size for faster loading and better LLM processing",
        some "Compress images, minify CSS/JS, and remove unnecessary resources to improve page performance"⟩]
    else []) ++
    (if ¬ technical.has_sitemap then
      [⟨"medium", "technical", "No sitemap.xml found",
        "Add a sitemap.xml file for better indexing and LLM discovery",
        some "Generate a sitemap.xml file listing all important pages on your site with priority and change frequency"⟩]
    else []) ++
    (if ¬ technical.structured_data_valid then
      [⟨"high", "technical", "Invalid structured data",
        "Fix structured data validation errors for better LLM understanding",
        some "Use Schema.org's validator or Google's Structured Data Testing Tool to identify and fix errors"⟩]
    else []) ++
    (if 3000 < technical.load_time_ms then
      [⟨"medium", "technical", "Slow page load time",
        "Improve page speed for better user experience and LLM crawling",
        some "Optimize server response time, enable caching, and reduce render-blocking resources"⟩]
    else [])
  schema_recs ++ meta_recs ++ content_recs ++ technical_recs

/-- `_generate_recommendations`: the rule evaluations followed by the
stable priority sort. -/
def generate_recommendations (schema_org : SchemaReport)
    (meta_tags : MetaReport) (content : ContentReport)
    (technical : TechnicalReport) : List Recommendation :=
  stableSort (fun a b => priority_order a.priority ≤ priority_order b.priority)
    (generate_recommendations_raw schema_org meta_tags content technical)

/-! ### `audit_website` -/

/-- The `component_scores` dict. -/
structure ComponentScores where
  schema_score : ℤ
  meta_score : ℤ
  content_score : ℤ
  technical_score : ℤ

/-- The success-path `audit_results` dict. -/
structure AuditResult where
  domain : String
  status_code : ℕ
  schema_org : SchemaReport
  meta_tags : MetaReport
  content_structure : ContentReport
  technical_factors : TechnicalReport
  timestamp : String
  component_scores : ComponentScores
  llm_friendly_score : ℤ
  recommendations : List Recommendation

/-- The success path of `audit_website` (lines 34–81), with the parsed
document, transport metadata, probe outcomes and the
`datetime.now().isoformat()` timestamp injected. -/
def audit_success (domain : String) (doc : HtmlDoc) (status_code : ℕ)
    (content_length : ℕ) (elapsed_seconds : ℚ) (probes : ProbeResults)
    (timestamp : String) : AuditResult :=
  let schema_analysis := analyze_schema_org doc.ldJsonScripts
  let meta_analysis := analyze_meta_tags doc
  let content_analysis := analyze_content_structure doc
  let technical_analysis := analyze_technical_factors doc domain
    content_length elapsed_seconds probes
  let schema_score := calculate_schema_score schema_analysis
  let meta_score := calculate_meta_score meta_analysis
  let content_score := calculate_content_score content_analysis
  let technical_score := calculate_technical_score technical_analysis
  { domain := domain
    status_code := status_code
    schema_org := schema_analysis
    meta_tags := meta_analysis
    content_structure := content_analysis
    technical_factors := technical_analysis
    timestamp := timestamp
    component_scores := ⟨schema_score, meta_score, content_score,
      technical_score⟩
    llm_friendly_score := calculate_overall_score schema_score meta_score
      content_score technical_score
    recommendations := generate_recommendations schema_analysis
      meta_analysis content_analysis technical_analysis }

/-- An error-path result dict (`status_code` is only present for the
`HTTPError` handler; its inner `Option` is the
`e.response.status_code if ... else None` value). -/
structure ErrorResult where
  domain : String
  error : String
  error_type : String
  status_code : Option (Option ℕ)
  llm_friendly_score : ℤ
  recommendations : List Recommendation

/-- How the fetch-and-analyse attempt ended: normally, or with one of
the exceptions handled by `audit_website`'s `except` clauses (any
exception raised during analysis lands in `otherError`). -/
inductive FetchOutcome where
  | ok (doc : HtmlDoc) (status_code : ℕ) (content_length : ℕ)
      (elapsed_seconds : ℚ) (probes : ProbeResults)
  | connectionError (msg : String)
  | timeoutError (msg : String)
  | httpError (status : Option ℕ) (msg : String)
  | otherError (msg : String)

/-- The two possible shapes of the returned dict. -/
inductive AuditOutput where
  | success (r : AuditResult)
  | failure (e : ErrorResult)

/-- `audit_website`: domain normalisation, then the success path or one
of the four `except` handlers. -/
def audit_website (domain : String) (outcome : FetchOutcome)
    (timestamp : String) : AuditOutput :=
  let domain :=
    if ¬ (pyStartsWith domain "http://" ∨ pyStartsWith domain "https://") then
      "https://" ++ domain
    else domain
  match outcome with
  | .ok doc status_code content_length elapsed_seconds probes =>
      .success (audit_success domain doc status_code content_length
        elapsed_seconds probes timestamp)
  | .connectionError msg =>
      let e : ErrorResult :=
        { domain := domain,
          error := "Connection error: " ++ msg,
          error_type := "connection_error",
          status_code := none,
          llm_friendly_score := 0,
          recommendations := [⟨"high", "technical",
            "Website connection failed",
            "Ensure your website is accessible and properly configured",
            none⟩] }
      .failure e
  | .timeoutError msg =>
      let e : ErrorResult :=
        { domain := domain,
          error := "Timeout error: " ++ msg,
          error_type := "timeout",
          status_code := none,
          llm_friendly_score := 0,
          recommendations := [⟨"high", "technical",
            "Website response timeout",
            "Improve website loading speed and server response time",
            none⟩] }
      .failure e
  | .httpError status msg =>
      let e : ErrorResult :=
        { domain := domain,
          error := "HTTP error: " ++ msg,
          error_type := "http_error",
          status_code := some status,
          llm_friendly_score := 0,
          recommendations := [⟨"high", "technical",
            "HTTP error " ++
              (match status with
               | some s => natRepr s
               | none => "unknown"),
            "Fix server configuration or page errors",
            none⟩] }
      .failure e
  | .otherError msg =>
      let e : ErrorResult :=
        { domain := domain,
          error := "Unexpected error: " ++ msg,
          error_type := "unexpected_error",
          status_code := none,
          llm_friendly_score := 0,
          recommendations := [⟨"high", "technical",
            "Website audit failed",
            "Contact support for assistance with this website",
            none⟩] }
      .failure e

/-! ## Claims -/

/-- **C1.** For component scores in `[0, 100]`, the overall
LLM-friendly score equals `round(min(100, 0.35*schema + 0.25*meta +
0.30*content + 0.10*technical + B))`, where `B` adds 5 when schema and
content are both ≥ 80, 3 when all four components are ≥ 70, and 2 when
meta ≥ 90 and schema ≥ 70 (`round` is Python's round-half-to-even); in
particular the overall score is a pure function of the four component
scores. -/
theorem C1_overall_score_formula (s m c t : ℤ)
    (hs : 0 ≤ s ∧ s ≤ 100) (hm : 0 ≤ m ∧ m ≤ 100)
    (hc : 0 ≤ c ∧ c ≤ 100) (ht : 0 ≤ t ∧ t ≤ 100) :
    calculate_overall_score s m c t =
      pyRound (min 100
        (0.35 * (s : ℚ) + 0.25 * (m : ℚ) + 0.30 * (c : ℚ) +
          0.10 * (t : ℚ) +
          ((if 80 ≤ s ∧ 80 ≤ c then (5 : ℚ) else 0) +
           (if 70 ≤ s ∧ 70 ≤ m ∧ 70 ≤ c ∧ 70 ≤ t then 3 else 0) +
           (if 90 ≤ m ∧ 70 ≤ s then 2 else 0)))) := by
  unfold calculate_overall_score
  ring_nf

/-- Witness for C1 at `(85, 92, 80, 75)`. -/
theorem C1_overall_score_formula_witness :
    calculate_overall_score 85 92 80 75 =
      pyRound (min 100
        (0.35 * ((85 : ℤ) : ℚ) + 0.25 * ((92 : ℤ) : ℚ) +
          0.30 * ((80 : ℤ) : ℚ) + 0.10 * ((75 : ℤ) : ℚ) +
          ((if (80 : ℤ) ≤ 85 ∧ (80 : ℤ) ≤ 80 then (5 : ℚ) else 0) +
           (if (70 : ℤ) ≤ 85 ∧ (70 : ℤ) ≤ 92 ∧ (70 : ℤ) ≤ 80 ∧
              (70 : ℤ) ≤ 75 then 3 else 0) +
           (if (90 : ℤ) ≤ 92 ∧ (70 : ℤ) ≤ 85 then 2 else 0)))) :=
  C1_overall_score_formula 85 92 80 75 (by norm_num) (by norm_num)
    (by norm_num) (by norm_num)

/-! ### C7: `_check_mobile_friendly` -/

/-- A parsed empty HTML document: every soup query comes back empty. -/
def emptyDoc : HtmlDoc :=
  { ldJsonScripts := []
    titleTagText := none
    metasWithName := []
    propMetas := []
    canonicalHref := none
    headings := []
    paragraphTexts := []
    tagCount := fun _ => 0
    dls := []
    qhBlocks := []
    tablesWithTh := 0
    figuresWithCaption := 0
    accordionSelectorCounts := [0, 0, 0, 0]
    imageAlts := []
    anchorHrefs := []
    styleStrings := []
    stylesheetMediaAttrs := []
    text := "" }

/-- First conjunct of the claimed `mobile_friendly` condition: a
viewport meta tag whose content contains `width=device-width`. -/
def hasDeviceWidthViewport (doc : HtmlDoc) : Bool :=
  match findMeta doc "viewport" with
  | none => false
  | some content => strContains (content.getD "") "width=device-width"

/-- Second conjunct, first disjunct: a `<style>` block containing a
`@media` rule. -/
def hasResponsiveMediaRule (doc : HtmlDoc) : Bool :=
  doc.styleStrings.any (fun s =>
    match s with
    | some str => strContains str "@media"
    | none => false)

/-- Second conjunct, second disjunct: a stylesheet link whose `media`
attribute contains `screen`. -/
def hasScreenStylesheet (doc : HtmlDoc) : Bool :=
  doc.stylesheetMediaAttrs.any (fun m => strContains m "screen")

/-- C7 as claimed (spec wording): `mobile_friendly` iff viewport with
`width=device-width` AND (responsive `@media` rule OR `media="screen"`
stylesheet link). -/
def mobileFriendlyClaim (doc : HtmlDoc) : Prop :=
  check_mobile_friendly doc = true ↔
    (hasDeviceWidthViewport doc = true ∧
      (hasResponsiveMediaRule doc = true ∨ hasScreenStylesheet doc = true))

/-- A document with a `width=device-width` viewport but no styles and
no stylesheet links at all. -/
def viewportOnlyDoc : HtmlDoc :=
  { emptyDoc with
      metasWithName :=
        [("viewport", some "width=device-width, initial-scale=1")] }

/-- **C7, counterexample.** On a document whose only relevant markup is
the viewport tag, `_check_mobile_friendly` returns `True` (its final
`return viewport is not None` line), although neither a `@media` rule
nor a `media="screen"` stylesheet link exists, so the claimed
equivalence fails. -/
theorem C7_mobile_friendly_claim_counterexample :
    ¬ mobileFriendlyClaim viewportOnlyDoc := by
  unfold mobileFriendlyClaim
  decide

/-- **C7, amended.** `mobile_friendly` is true iff a viewport meta tag
whose content contains `width=device-width` is present; the
responsive-CSS checks can only confirm early, never deny, because the
function ends with `return viewport is not None`. -/
theorem C7_mobile_friendly_iff_viewport (doc : HtmlDoc) :
    check_mobile_friendly doc = true ↔ hasDeviceWidthViewport doc = true := by
  unfold check_mobile_friendly hasDeviceWidthViewport
  cases h : findMeta doc "viewport" with
  | none => simp
  | some content =>
      by_cases hw : strContains (content.getD "") "width=device-width" <;>
        simp [hw]

/-! ### C8: `_calculate_basic_meta_completeness` -/

/-- Bounds for `score / max(total_weight, 0.01)` given the invariants
of the accumulation: nonnegative score, score at most the collected
weight plus the 0.05 keyword bonus, and the bonus only possible when
the 0.4 description weight was collected. -/
theorem basic_bound_of (st : ℚ × ℚ) (hs : 0 ≤ st.1)
    (h1 : st.1 ≤ st.2 + 0.05) (h2 : st.1 ≤ st.2 ∨ 0.4 ≤ st.2) :
    0 ≤ st.1 / max st.2 0.01 ∧ st.1 / max st.2 0.01 ≤ 9 / 8 := by
  have hmaxpos : (0 : ℚ) < max st.2 0.01 := by
    have : (0 : ℚ) < 0.01 := by norm_num
    exact lt_max_of_lt_right this
  constructor
  · exact div_nonneg hs (le_of_lt hmaxpos)
  · rw [div_le_iff₀ hmaxpos]
    rcases h2 with h2 | h2
    · rcases le_or_lt st.2 0.01 with hw | hw
      · have : max st.2 0.01 = 0.01 := max_eq_right hw
        rw [this]
        nlinarith
      · have : max st.2 0.01 = st.2 := max_eq_left (le_of_lt hw)
        rw [this]
        nlinarith
    · have : max st.2 0.01 = st.2 := max_eq_left (by linarith)
      rw [this]
      nlinarith

/-- C8 as claimed (spec wording): the plain weighted sum of per-tag
contributions — title weight 0.4 graded by length band, description
weight 0.4 graded by length band, canonical 0.1, robots 0.05 (penalized
for `noindex`), viewport 0.05 — with a missing tag contributing 0 of
its weight. -/
def specBasicCompleteness (m : MetaReport) : ℚ :=
  (if truthyStr m.title then
    (if 50 ≤ m.title_length ∧ m.title_length ≤ 65 then (0.4 : ℚ)
     else if 40 ≤ m.title_length ∧ m.title_length ≤ 75 then 0.4 * 0.8
     else if 30 ≤ m.title_length ∧ m.title_length ≤ 85 then 0.4 * 0.6
     else 0.4 * 0.3)
   else 0) +
  (if truthyStr m.description then
    (if 140 ≤ m.description_length ∧ m.description_length ≤ 170 then (0.4 : ℚ)
     else if 120 ≤ m.description_length ∧ m.description_length ≤ 190 then
       0.4 * 0.8
     else if 100 ≤ m.description_length ∧ m.description_length ≤ 220 then
       0.4 * 0.6
     else 0.4 * 0.3)
   else 0) +
  (if truthyStr m.canonical then (0.1 : ℚ) else 0) +
  (if truthyStr m.robots then
    (if ¬ strContains (pyLower (m.robots.getD "")) "noindex" then (0.05 : ℚ)
     else 0.05 * 0.2)
   else 0) +
  (if truthyStr m.viewport then (0.05 : ℚ) else 0)

/-- A document whose only relevant markup is a canonical link. -/
def canonicalOnlyDoc : HtmlDoc :=
  { emptyDoc with canonicalHref := some (some "https://example.com/") }

/-- A 140-character meta description containing the two meta keywords
`alpha` and `beta`. -/
def descC8 : String :=
  "alpha beta xxxxxxxxxxxxxxxxxxxxxxxxxxxxxxxxxxxxxxxxxxxxxxxxxxxxxxxxxxxxxxxxxxxxxxxxxxxxxxxxxxxxxxxxxxxxxxxxxxxxxxxxxxxxxxxxxxxxxxxxxxxxxxxxx"

/-- A document with that description and a `keywords` meta tag, and
nothing else. -/
def keywordBonusDoc : HtmlDoc :=
  { emptyDoc with
      metasWithName :=
        [("description", some descC8), ("keywords", some "alpha, beta")] }

set_option maxRecDepth 100000 in
/-- **C8, counterexample.**  With only a canonical tag present the code
returns `0.1 / max(0.1, 0.01) = 1`, not the claimed weighted sum `0.1`
(a missing tag drops out of the denominator too); and with a
full-credit description plus the `≥ 2` keyword-match bonus the ratio is
`0.45 / 0.4 = 9/8 > 1`, outside the claimed range `[0, 1]`. -/
theorem C8_basic_completeness_counterexample :
    (calculate_basic_meta_completeness (analyze_meta_tags canonicalOnlyDoc) = 1 ∧
      specBasicCompleteness (analyze_meta_tags canonicalOnlyDoc) = 0.1) ∧
    (calculate_basic_meta_completeness (analyze_meta_tags keywordBonusDoc) =
        9 / 8 ∧
      1 < calculate_basic_meta_completeness (analyze_meta_tags keywordBonusDoc)) := by
  refine ⟨⟨?_, ?_⟩, ?_, ?_⟩
  · show ((0 : ℚ) + 0.1) / max ((0 : ℚ) + 0.1) 0.01 = 1
    rw [max_eq_left (by norm_num)]
    norm_num
  · show (0 : ℚ) + 0 + 0.1 + 0 + 0 = 0.1
    norm_num
  · show ((0 : ℚ) + 0.4 + 0.05) / max ((0 : ℚ) + 0.4) 0.01 = 9 / 8
    rw [max_eq_left (by norm_num)]
    norm_num
  · have h : calculate_basic_meta_completeness (analyze_meta_tags
        keywordBonusDoc) = ((0 : ℚ) + 0.4 + 0.05) / max ((0 : ℚ) + 0.4) 0.01 :=
      rfl
    rw [h, max_eq_left (by norm_num)]
    norm_num

/-- Title stage of `_calculate_basic_meta_completeness` (the
accumulated `(score, total_weight)` pair after the title clause). -/
def basicTitleStage (m : MetaReport) : ℚ × ℚ :=
  if truthyStr m.title then
    let weight : ℚ := 0.4
    let tl := m.title_length
    let s : ℚ :=
      if 50 ≤ tl ∧ tl ≤ 65 then 0 + weight
      else if 40 ≤ tl ∧ tl ≤ 75 then 0 + weight * 0.8
      else if 30 ≤ tl ∧ tl ≤ 85 then 0 + weight * 0.6
      else 0 + weight * 0.3
    (s, 0 + weight)
  else (0, 0)

/-- Description stage (length band plus keyword bonus). -/
def basicDescStage (m : MetaReport) (st : ℚ × ℚ) : ℚ × ℚ :=
  if truthyStr m.description then
    let weight : ℚ := 0.4
    let dl := m.description_length
    let s : ℚ :=
      if 140 ≤ dl ∧ dl ≤ 170 then st.1 + weight
      else if 120 ≤ dl ∧ dl ≤ 190 then st.1 + weight * 0.8
      else if 100 ≤ dl ∧ dl ≤ 220 then st.1 + weight * 0.6
      else st.1 + weight * 0.3
    let s : ℚ :=
      if truthyStr m.keywords then
        let keywords := (pySplitOn (m.keywords.getD "") ",").map
          (fun k => pyLower (pyStrip k))
        let desc_lower := pyLower (m.description.getD "")
        let keyword_matches :=
          (keywords.filter (fun k => strContains desc_lower k)).length
        if 2 ≤ keyword_matches then s + 0.05 else s
      else s
    (s, st.2 + weight)
  else (st.1, st.2)

/-- Canonical stage. -/
def basicCanonicalStage (m : MetaReport) (st : ℚ × ℚ) : ℚ × ℚ :=
  if truthyStr m.canonical then (st.1 + 0.1, st.2 + 0.1) else (st.1, st.2)

/-- Robots stage. -/
def basicRobotsStage (m : MetaReport) (st : ℚ × ℚ) : ℚ × ℚ :=
  if truthyStr m.robots then
    if ¬ strContains (pyLower (m.robots.getD "")) "noindex" then
      (st.1 + 0.05, st.2 + 0.05)
    else (st.1 + 0.05 * 0.2, st.2 + 0.05)
  else (st.1, st.2)

/-- Viewport stage. -/
def basicViewportStage (m : MetaReport) (st : ℚ × ℚ) : ℚ × ℚ :=
  if truthyStr m.viewport then (st.1 + 0.05, st.2 + 0.05) else (st.1, st.2)

/-- The stage decomposition agrees definitionally with
`calculate_basic_meta_completeness`. -/
theorem basic_staged (m : MetaReport) :
    calculate_basic_meta_completeness m =
      (basicViewportStage m (basicRobotsStage m (basicCanonicalStage m
          (basicDescStage m (basicTitleStage m))))).1 /
        max (basicViewportStage m (basicRobotsStage m (basicCanonicalStage m
          (basicDescStage m (basicTitleStage m))))).2 0.01 := rfl

/-- The accumulation invariant: a nonnegative score, at most the weight
(or at most weight + 0.05 with the 0.4 description weight collected). -/
def BasicInv (st : ℚ × ℚ) : Prop :=
  0 ≤ st.1 ∧ (st.1 ≤ st.2 ∨ (st.1 ≤ st.2 + 0.05 ∧ 0.4 ≤ st.2))

theorem basicTitleStage_inv (m : MetaReport) :
    0 ≤ (basicTitleStage m).1 ∧ (basicTitleStage m).1 ≤ (basicTitleStage m).2 := by
  unfold basicTitleStage
  split_ifs with hT
  · dsimp only
    split_ifs <;> norm_num
  · norm_num

theorem basicDescStage_inv (m : MetaReport) (st : ℚ × ℚ)
    (h0 : 0 ≤ st.1) (h1 : st.1 ≤ st.2) : BasicInv (basicDescStage m st) := by
  unfold basicDescStage BasicInv
  by_cases hD : truthyStr m.description = true
  · rw [if_pos hD]
    dsimp only
    split_ifs <;>
      exact ⟨by linarith, Or.inr ⟨by linarith, by linarith⟩⟩
  · rw [if_neg hD]
    exact ⟨h0, Or.inl h1⟩

theorem basicCanonicalStage_inv (m : MetaReport) (st : ℚ × ℚ)
    (h : BasicInv st) : BasicInv (basicCanonicalStage m st) := by
  obtain ⟨h0, hd⟩ := h
  unfold basicCanonicalStage BasicInv
  split_ifs with hC
  · dsimp only
    rcases hd with h | ⟨ha, hb⟩
    · exact ⟨by linarith, Or.inl (by linarith)⟩
    · exact ⟨by linarith, Or.inr ⟨by linarith, by linarith⟩⟩
  · exact ⟨h0, hd⟩

theorem basicRobotsStage_inv (m : MetaReport) (st : ℚ × ℚ)
    (h : BasicInv st) : BasicInv (basicRobotsStage m st) := by
  obtain ⟨h0, hd⟩ := h
  unfold basicRobotsStage BasicInv
  split_ifs with hR hN
  · dsimp only
    rcases hd with h | ⟨ha, hb⟩
    · exact ⟨by linarith, Or.inl (by linarith)⟩
    · exact ⟨by linarith, Or.inr ⟨by linarith, by linarith⟩⟩
  · dsimp only
    rcases hd with h | ⟨ha, hb⟩
    · exact ⟨by linarith, Or.inl (by linarith)⟩
    · exact ⟨by linarith, Or.inr ⟨by linarith, by linarith⟩⟩
  · exact ⟨h0, hd⟩

theorem basicViewportStage_inv (m : MetaReport) (st : ℚ × ℚ)
    (h : BasicInv st) : BasicInv (basicViewportStage m st) := by
  obtain ⟨h0, hd⟩ := h
  unfold basicViewportStage BasicInv
  split_ifs with hV
  · dsimp only
    rcases hd with h | ⟨ha, hb⟩
    · exact ⟨by linarith, Or.inl (by linarith)⟩
    · exact ⟨by linarith, Or.inr ⟨by linarith, by linarith⟩⟩
  · exact ⟨h0, hd⟩

/-- **C8, amended.**  The basic completeness ratio is
`score / max(total_weight, 0.01)`, where only tags that are present
contribute their (graded) weight to `score` and their full weight to
`total_weight`, plus a `0.05` keyword bonus on the description
contribution; the ratio always lies in `[0, 9/8]` (not `[0, 1]`). -/
theorem C8_basic_completeness_in_range (m : MetaReport) :
    0 ≤ calculate_basic_meta_completeness m ∧
      calculate_basic_meta_completeness m ≤ 9 / 8 := by
  rw [basic_staged]
  have p1 := basicTitleStage_inv m
  have p2 := basicDescStage_inv m _ p1.1 p1.2
  have p3 := basicCanonicalStage_inv m _ p2
  have p4 := basicRobotsStage_inv m _ p3
  have p5 := basicViewportStage_inv m _ p4
  obtain ⟨h0, hd⟩ := p5
  apply basic_bound_of _ h0
  · rcases hd with h | ⟨ha, _⟩
    · linarith
    · exact ha
  · rcases hd with h | ⟨_, hb⟩
    · exact Or.inl h
    · exact Or.inr hb

/-! ### C2: all scores lie in `[0, 100]` -/

theorem og_image_dimension_bonus_nonneg (og : List (String × Option String)) :
    0 ≤ og_image_dimension_bonus og := by
  unfold og_image_dimension_bonus
  split
  · split
    · split_ifs <;> norm_num
    · norm_num
  · norm_num

theorem og_article_bonus_nonneg (m : MetaReport) : 0 ≤ og_article_bonus m := by
  unfold og_article_bonus
  split_ifs <;> norm_num

/-- An `if` with two nonnegative branches is nonnegative. -/
theorem ite_nonneg {α : Type} [Zero α] [Preorder α] (c : Prop)
    [Decidable c] {a b : α} (ha : 0 ≤ a) (hb : 0 ≤ b) : 0 ≤ ite c a b := by
  split_ifs <;> assumption

/-- An `if` of pairs with nonnegative first components. -/
theorem ite_fst_nonneg {α β : Type} [Zero α] [Preorder α] (c : Prop)
    [Decidable c] {p q : α × β} (hp : 0 ≤ p.1) (hq : 0 ≤ q.1) :
    0 ≤ (ite c p q).1 := by
  split_ifs <;> assumption

theorem socialOgStage_fst_nonneg (m : MetaReport) :
    0 ≤ (socialOgStage m).1 := by
  unfold socialOgStage
  split_ifs
  · dsimp only
    exact add_nonneg (le_refl 0)
      (mul_nonneg (by norm_num)
        (add_nonneg (div_nonneg (Nat.cast_nonneg _) (Nat.cast_nonneg _))
          (add_nonneg (og_image_dimension_bonus_nonneg m.og_tags)
            (og_article_bonus_nonneg m))))
  · norm_num

theorem socialTwitterStage_fst_nonneg (m : MetaReport) (st : ℚ × ℚ)
    (h : 0 ≤ st.1) : 0 ≤ (socialTwitterStage m st).1 := by
  unfold socialTwitterStage
  split_ifs
  · dsimp only
    exact add_nonneg h
      (mul_nonneg (by norm_num)
        (div_nonneg (Nat.cast_nonneg _) (Nat.cast_nonneg _)))
  · exact h

theorem calculate_social_meta_completeness_nonneg (m : MetaReport) :
    0 ≤ calculate_social_meta_completeness m := by
  unfold calculate_social_meta_completeness
  dsimp only
  apply ite_nonneg
  · exact div_nonneg
      (socialTwitterStage_fst_nonneg m _ (socialOgStage_fst_nonneg m))
      (le_max_of_le_right (by norm_num))
  · norm_num

theorem calculate_basic_meta_completeness_nonneg (m : MetaReport) :
    0 ≤ calculate_basic_meta_completeness m := by
  rw [basic_staged]
  have p1 := basicTitleStage_inv m
  have p2 := basicDescStage_inv m _ p1.1 p1.2
  have p3 := basicCanonicalStage_inv m _ p2
  have p4 := basicRobotsStage_inv m _ p3
  have p5 := basicViewportStage_inv m _ p4
  exact div_nonneg p5.1 (le_of_lt (lt_max_of_lt_right (by norm_num)))

theorem analyze_heading_hierarchy_nonneg (doc : HtmlDoc) :
    0 ≤ analyze_heading_hierarchy doc := by
  unfold analyze_heading_hierarchy
  dsimp only
  split
  · norm_num
  · split_ifs
    · norm_num
    · exact le_max_left _ _

theorem calculate_schema_score_bounds (r : SchemaReport) :
    0 ≤ calculate_schema_score r ∧ calculate_schema_score r ≤ 100 := by
  unfold calculate_schema_score
  dsimp only
  constructor
  · refine le_min ?_ (by norm_num)
    repeat'
      first
        | apply ite_nonneg
        | apply add_nonneg
        | norm_num
  · exact min_le_right _ _

theorem calculate_meta_score_bounds (m : MetaReport)
    (hb : 0 ≤ m.completeness_basic) (hs : 0 ≤ m.completeness_social) :
    0 ≤ calculate_meta_score m ∧ calculate_meta_score m ≤ 100 := by
  unfold calculate_meta_score
  dsimp only
  have h1 : 0 ≤ pyInt (m.completeness_basic * 50) :=
    pyInt_nonneg (by nlinarith)
  have h2 : 0 ≤ pyInt (m.completeness_social * 30) :=
    pyInt_nonneg (by nlinarith)
  constructor
  · refine le_min ?_ (by norm_num)
    repeat'
      first
        | exact h1
        | exact h2
        | apply ite_nonneg
        | apply add_nonneg
        | norm_num
  · exact min_le_right _ _

theorem calculate_content_score_bounds (c : ContentReport)
    (hh : 0 ≤ c.heading_hierarchy_score) :
    0 ≤ calculate_content_score c ∧ calculate_content_score c ≤ 100 := by
  unfold calculate_content_score
  dsimp only
  have h1 : 0 ≤ pyInt (c.heading_hierarchy_score * 15) :=
    pyInt_nonneg (by nlinarith)
  have h2 : 0 ≤ pyInt ((c.images_with_alt : ℚ) / (c.images : ℚ) * 10) :=
    pyInt_nonneg (by positivity)
  constructor
  · refine le_min ?_ (by norm_num)
    repeat'
      first
        | exact h1
        | exact h2
        | apply ite_nonneg
        | apply add_nonneg
        | norm_num
  · exact min_le_right _ _

theorem calculate_technical_score_bounds (t : TechnicalReport) :
    0 ≤ calculate_technical_score t ∧ calculate_technical_score t ≤ 100 := by
  unfold calculate_technical_score
  dsimp only
  constructor
  · refine le_min ?_ (by norm_num)
    repeat'
      first
        | apply ite_nonneg
        | apply add_nonneg
        | norm_num
  · exact min_le_right _ _

theorem calculate_overall_score_bounds (s m c t : ℤ)
    (hs : 0 ≤ s) (hm : 0 ≤ m) (hc : 0 ≤ c) (ht : 0 ≤ t) :
    0 ≤ calculate_overall_score s m c t ∧
      calculate_overall_score s m c t ≤ 100 := by
  unfold calculate_overall_score
  dsimp only
  have hs2 : (0 : ℚ) ≤ (s : ℚ) := by exact_mod_cast hs
  have hm2 : (0 : ℚ) ≤ (m : ℚ) := by exact_mod_cast hm
  have hc2 : (0 : ℚ) ≤ (c : ℚ) := by exact_mod_cast hc
  have ht2 : (0 : ℚ) ≤ (t : ℚ) := by exact_mod_cast ht
  constructor
  · apply pyRound_nonneg
    refine le_min (by norm_num) ?_
    repeat'
      first
        | exact hs2
        | exact hm2
        | exact hc2
        | exact ht2
        | apply ite_nonneg
        | apply add_nonneg
        | apply mul_nonneg
        | norm_num
  · apply pyRound_le
    push_cast
    exact min_le_left _ _

/-- **C2.** For every input document (and transport metadata), each of
the four component scores and the overall score produced by the audit
is an integer in `[0, 100]`. -/
theorem C2_scores_in_range (domain : String) (doc : HtmlDoc)
    (status_code content_length : ℕ) (elapsed_seconds : ℚ)
    (probes : ProbeResults) (ts : String) :
    let r := audit_success domain doc status_code content_length
      elapsed_seconds probes ts
    (0 ≤ r.component_scores.schema_score ∧
        r.component_scores.schema_score ≤ 100) ∧
      (0 ≤ r.component_scores.meta_score ∧
        r.component_scores.meta_score ≤ 100) ∧
      (0 ≤ r.component_scores.content_score ∧
        r.component_scores.content_score ≤ 100) ∧
      (0 ≤ r.component_scores.technical_score ∧
        r.component_scores.technical_score ≤ 100) ∧
      (0 ≤ r.llm_friendly_score ∧ r.llm_friendly_score ≤ 100) := by
  have hschema := calculate_schema_score_bounds
    (analyze_schema_org doc.ldJsonScripts)
  have hmeta := calculate_meta_score_bounds (analyze_meta_tags doc)
    (calculate_basic_meta_completeness_nonneg _)
    (calculate_social_meta_completeness_nonneg _)
  have hcontent := calculate_content_score_bounds
    (analyze_content_structure doc) (analyze_heading_hierarchy_nonneg doc)
  have htech := calculate_technical_score_bounds
    (analyze_technical_factors doc domain content_length elapsed_seconds
      probes)
  have hoverall := calculate_overall_score_bounds _ _ _ _
    hschema.1 hmeta.1 hcontent.1 htech.1
  exact ⟨hschema, hmeta, hcontent, htech, hoverall⟩

/-! ### C3: determinism and timestamp independence -/

/-- Blank out the timestamp field, leaving every other field intact. -/
def eraseTimestamp (r : AuditResult) : AuditResult := { r with timestamp := "" }

/-- **C3.** Two audit invocations on equal documents, transport
metadata, probe outcomes and injected timestamps produce equal results
(determinism: the embedded pipeline is a pure function of these
inputs); the timestamp input is stored verbatim, and two runs that
differ only in the injected timestamp agree on every other field. -/
theorem C3_determinism (domain : String) (doc₁ doc₂ : HtmlDoc)
    (sc₁ sc₂ cl₁ cl₂ : ℕ) (es₁ es₂ : ℚ) (pr₁ pr₂ : ProbeResults)
    (ts₁ ts₂ : String) (hdoc : doc₁ = doc₂) (hsc : sc₁ = sc₂)
    (hcl : cl₁ = cl₂) (hes : es₁ = es₂) (hpr : pr₁ = pr₂) :
    (ts₁ = ts₂ →
      audit_success domain doc₁ sc₁ cl₁ es₁ pr₁ ts₁ =
        audit_success domain doc₂ sc₂ cl₂ es₂ pr₂ ts₂) ∧
    (audit_success domain doc₁ sc₁ cl₁ es₁ pr₁ ts₁).timestamp = ts₁ ∧
    eraseTimestamp (audit_success domain doc₁ sc₁ cl₁ es₁ pr₁ ts₁) =
      eraseTimestamp (audit_success domain doc₂ sc₂ cl₂ es₂ pr₂ ts₂) := by
  subst hdoc hsc hcl hes hpr
  exact ⟨fun h => by rw [h], rfl, rfl⟩

/-- Witness for C3: the empty document with two different timestamps. -/
theorem C3_determinism_witness :
    (("2024-01-01T00:00:00" : String) = "2024-01-02T00:00:00" →
      audit_success "https://example.com" emptyDoc 200 0 0 ⟨false, false⟩
          "2024-01-01T00:00:00" =
        audit_success "https://example.com" emptyDoc 200 0 0 ⟨false, false⟩
          "2024-01-02T00:00:00") ∧
    (audit_success "https://example.com" emptyDoc 200 0 0 ⟨false, false⟩
        "2024-01-01T00:00:00").timestamp = "2024-01-01T00:00:00" ∧
    eraseTimestamp (audit_success "https://example.com" emptyDoc 200 0 0
        ⟨false, false⟩ "2024-01-01T00:00:00") =
      eraseTimestamp (audit_success "https://example.com" emptyDoc 200 0 0
        ⟨false, false⟩ "2024-01-02T00:00:00") :=
  C3_determinism "https://example.com" emptyDoc emptyDoc 200 200 0 0 0 0
    ⟨false, false⟩ ⟨false, false⟩ "2024-01-01T00:00:00"
    "2024-01-02T00:00:00" rfl rfl rfl rfl rfl

/-! ### C4: recommendation ordering -/

/-- **C4.** The recommendation list is sorted by priority rank
(high = 0, medium = 1, low = 2), so in particular no medium- or
low-priority entry precedes a high-priority one; and within each
priority rank the original rule-evaluation order
(`generate_recommendations_raw`) is preserved. -/
theorem C4_recommendations_sorted (schema_org : SchemaReport)
    (meta_tags : MetaReport) (content : ContentReport)
    (technical : TechnicalReport) :
    (generate_recommendations schema_org meta_tags content
        technical).Pairwise
      (fun a b => priority_order a.priority ≤ priority_order b.priority) ∧
    ∀ k : ℕ,
      (generate_recommendations schema_org meta_tags content
          technical).filter
        (fun x => priority_order x.priority = k) =
      (generate_recommendations_raw schema_org meta_tags content
          technical).filter
        (fun x => priority_order x.priority = k) := by
  constructor
  · have htot : ∀ a b : Recommendation,
        decide (priority_order a.priority ≤ priority_order b.priority) =
          true ∨
        decide (priority_order b.priority ≤ priority_order a.priority) =
          true := by
      intro a b
      rcases le_total (priority_order a.priority)
        (priority_order b.priority) with h | h
      · exact Or.inl (decide_eq_true h)
      · exact Or.inr (decide_eq_true h)
    have htrans : ∀ a b c : Recommendation,
        decide (priority_order a.priority ≤ priority_order b.priority) =
          true →
        decide (priority_order b.priority ≤ priority_order c.priority) =
          true →
        decide (priority_order a.priority ≤ priority_order c.priority) =
          true := by
      intro a b c hab hbc
      exact decide_eq_true
        (le_trans (of_decide_eq_true hab) (of_decide_eq_true hbc))
    have h := pairwise_stableSort
      (fun a b : Recommendation =>
        decide (priority_order a.priority ≤ priority_order b.priority))
      htot htrans
      (generate_recommendations_raw schema_org meta_tags content technical)
    exact h.imp (fun hab => of_decide_eq_true hab)
  · intro k
    exact filter_stableSort_rank
      (fun x : Recommendation => priority_order x.priority) k _

/-! ### C9: no depth limit in the JSON-LD traversal -/

/-- A JSON-LD object nested to the given depth:
`nestObj 0 = {"a": "x"}`, `nestObj (n+1) = {"a": nestObj n}`. -/
def nestObj : ℕ → Json
  | 0 => .str "x"
  | n + 1 => .obj [("a", nestObj n)]

/-- The dot-joined path `a.a.….a` with `n+1` segments. -/
def dotted : ℕ → String
  | 0 => "a"
  | n + 1 => "a." ++ dotted n

/-- Depth of a dot-joined property path: number of segments. -/
def pathDepth (p : String) : ℕ :=
  (p.data.filter (fun c => c = '.')).length + 1

/-- C9 as claimed (spec wording): the property traversal is bounded by
some hard depth limit, i.e. no extracted property path exceeds a fixed
depth. -/
def boundedDepthTraversal : Prop :=
  ∃ D : ℕ, ∀ j : Json, ∀ p ∈ extract_schema_properties j, pathDepth p ≤ D

theorem mem_insertIfAbsent_self (l : List String) (x : String) :
    x ∈ insertIfAbsent l x := by
  unfold insertIfAbsent
  split_ifs with h
  · exact h
  · simp

theorem mem_insertIfAbsent_of_mem (l : List String) (x y : String)
    (h : x ∈ l) : x ∈ insertIfAbsent l y := by
  unfold insertIfAbsent
  split_ifs <;> simp [h]

theorem strDataAppend (a b : String) : (a ++ b).data = a.data ++ b.data := by
  cases a
  cases b
  rfl

theorem strAppendAssoc (a b c : String) :
    a ++ b ++ c = a ++ (b ++ c) := by
  cases a with
  | mk la =>
    cases b with
    | mk lb =>
      cases c with
      | mk lc =>
        show String.mk (la ++ lb ++ lc) = String.mk (la ++ (lb ++ lc))
        rw [List.append_assoc]

theorem appendStrNeEmpty (p s : String) (h : s.data.length ≠ 0) :
    p ++ s ≠ "" := by
  intro hcon
  have hd : p.data ++ s.data = ([] : List Char) := by
    have := congrArg String.data hcon
    rwa [strDataAppend] at this
  have hlen := congrArg List.length hd
  rw [List.length_append] at hlen
  simp only [List.length_nil] at hlen
  omega

theorem processDictProps_nil (acc : List String) (pfx : String) :
    processDictProps acc pfx [] = acc := by
  rw [processDictProps]

theorem processDictProps_cons (acc : List String) (pfx k : String)
    (v : Json) (rest : List (String × Json))
    (hk : pyStartsWith k "@" = false) :
    processDictProps acc pfx ((k, v) :: rest) =
      processDictProps
        (processValProps (insertIfAbsent acc (propName pfx k))
          (propName pfx k) v) pfx rest := by
  rw [processDictProps]
  simp only [hk, Bool.false_eq_true, if_false]

theorem processValProps_obj (acc : List String) (p : String)
    (fs : List (String × Json)) :
    processValProps acc p (.obj fs) = processDictProps acc (p ++ ".") fs := by
  rw [processValProps]

theorem processValProps_str (acc : List String) (p s : String) :
    processValProps acc p (.str s) = acc := by
  rw [processValProps]
  all_goals intro _ h
  all_goals simp at h

theorem propName_ne (pfx k : String) (hpfx : pfx ≠ "") :
    propName pfx k = pfx ++ k := by
  unfold propName
  rw [if_neg hpfx]

theorem dotted_mem_processDictProps : ∀ (n : ℕ) (pfx : String)
    (acc : List String), pfx ≠ "" →
    pfx ++ dotted n ∈ processDictProps acc pfx [("a", nestObj (n + 1))] := by
  intro n
  induction n with
  | zero =>
      intro pfx acc hpfx
      show pfx ++ dotted 0 ∈
        processDictProps acc pfx [("a", Json.obj [("a", Json.str "x")])]
      rw [processDictProps_cons acc pfx "a" _ _ rfl, propName_ne pfx "a" hpfx,
        processValProps_obj,
        processDictProps_cons _ _ "a" _ _ rfl,
        propName_ne _ "a" (appendStrNeEmpty _ "." (by decide)),
        processValProps_str, processDictProps_nil, processDictProps_nil]
      exact mem_insertIfAbsent_of_mem _ _ _
        (mem_insertIfAbsent_self acc (pfx ++ "a"))
  | succ n ih =>
      intro pfx acc hpfx
      show pfx ++ dotted (n + 1) ∈
        processDictProps acc pfx [("a", Json.obj [("a", nestObj (n + 1))])]
      rw [processDictProps_cons acc pfx "a" _ _ rfl, propName_ne pfx "a" hpfx,
        processValProps_obj, processDictProps_nil]
      have key := ih (pfx ++ "a" ++ ".") (insertIfAbsent acc (pfx ++ "a"))
        (appendStrNeEmpty _ "." (by decide))
      have harr : pfx ++ "a" ++ "." ++ dotted n = pfx ++ dotted (n + 1) := by
        show pfx ++ "a" ++ "." ++ dotted n = pfx ++ ("a." ++ dotted n)
        rw [strAppendAssoc (pfx ++ "a") "." (dotted n),
          strAppendAssoc pfx "a" ("." ++ dotted n),
          ← strAppendAssoc "a" "." (dotted n)]
        rfl
      rw [harr] at key
      exact key

theorem dotted_mem_extract (n : ℕ) :
    dotted (n + 1) ∈ extract_schema_properties (nestObj (n + 3)) := by
  show dotted (n + 1) ∈ extract_schema_properties
    (Json.obj [("a", nestObj (n + 2))])
  have hred : extract_schema_properties (Json.obj [("a", nestObj (n + 2))]) =
      processDictProps [] "" [("a", nestObj (n + 2))] := by
    simp [extract_schema_properties, alookup]
  rw [hred]
  show dotted (n + 1) ∈
    processDictProps [] "" [("a", Json.obj [("a", nestObj (n + 1))])]
  rw [processDictProps_cons [] "" "a" _ _ rfl, processValProps_obj,
    processDictProps_nil]
  have key := dotted_mem_processDictProps n (propName "" "a" ++ ".")
    (insertIfAbsent [] (propName "" "a")) (by decide)
  have harr : (propName "" "a" ++ "." : String) ++ dotted n = dotted (n + 1) :=
    rfl
  rw [harr] at key
  exact key

theorem pathDepth_dotted (n : ℕ) : pathDepth (dotted n) = n + 1 := by
  induction n with
  | zero => rfl
  | succ n ih =>
      show pathDepth ("a." ++ dotted n) = n + 2
      unfold pathDepth at ih ⊢
      rw [strDataAppend, List.filter_append, List.length_append]
      have hx : (("a." : String).data.filter (fun c => c = '.')).length = 1 :=
        by decide
      rw [hx]
      omega

/-- **C9 counterexample.** The claim that the JSON-LD property traversal
is bounded by an explicit hard depth limit is false: `extract_schema_properties`
descends by unbounded recursion, so no depth bound `D` caps the depth of
the emitted property paths (refuted at the concrete nested objects
`nestObj`, whose extracted path `dotted (D+1)` has depth `D+2 > D`). -/
theorem C9_depth_limit_counterexample : ¬ boundedDepthTraversal := by
  rintro ⟨D, hD⟩
  have hle := hD (nestObj (D + 3)) (dotted (D + 1)) (dotted_mem_extract D)
  rw [pathDepth_dotted] at hle
  omega

/-- **C9 (amended).** The JSON-LD traversal has no hard depth limit: for
every candidate bound `D` there is a parsed input on which property
extraction emits a dot-joined path of depth exceeding `D`.  The traversal
is plain recursion on the parsed value; it terminates on every (finite)
parsed input because the embedded functions are total by structural
recursion, not because of any explicit depth limit. -/
theorem C9_no_depth_limit :
    ∀ D : ℕ, ∃ j : Json, ∃ p, p ∈ extract_schema_properties j ∧
      D < pathDepth p := by
  intro D
  refine ⟨nestObj (D + 3), dotted (D + 1), dotted_mem_extract D, ?_⟩
  rw [pathDepth_dotted]
  omega

/-! ### C10: every error path yields score 0 and one high technical
recommendation -/

/-- The error-handler contract of `audit_website`: the outcome is the
error dictionary, its score is 0, and its recommendation list holds
exactly one entry, of priority `high` and category `technical`. -/
def isZeroScoreHighTechnicalFailure : AuditOutput → Prop
  | .success _ => False
  | .failure e =>
      e.llm_friendly_score = 0 ∧
      e.recommendations.length = 1 ∧
      e.recommendations.map (fun r => (r.priority, r.category)) =
        [("high", "technical")]

/-- **C10.** On every fetch failure — connection error, timeout, HTTP
error, or any other exception — `audit_website` returns (rather than
propagates: the embedded function is total) an error result with
`llm_friendly_score = 0` whose recommendations list holds exactly one
entry, and that entry has priority `high` and category `technical`. -/
theorem C10_error_path (domain ts msg : String) (status : Option ℕ) :
    isZeroScoreHighTechnicalFailure
      (audit_website domain (.connectionError msg) ts) ∧
    isZeroScoreHighTechnicalFailure
      (audit_website domain (.timeoutError msg) ts) ∧
    isZeroScoreHighTechnicalFailure
      (audit_website domain (.httpError status msg) ts) ∧
    isZeroScoreHighTechnicalFailure
      (audit_website domain (.otherError msg) ts) :=
  ⟨⟨rfl, rfl, rfl⟩, ⟨rfl, rfl, rfl⟩, ⟨rfl, rfl, rfl⟩, ⟨rfl, rfl, rfl⟩⟩

/-! ### C5: the empty document -/

/-- The "Missing title tag" recommendation emitted by the meta rules. -/
def missingTitleRec : Recommendation :=
  ⟨"high", "meta", "Missing title tag",
    "Add a descriptive title tag (50-65 characters) for better LLM understanding",
    some "Create a title that includes your brand name, primary keyword, and value proposition"⟩

/-- The "Missing H1 heading" recommendation emitted by the content
rules. -/
def missingH1Rec : Recommendation :=
  ⟨"high", "content", "Missing H1 heading",
    "Add a single H1 heading that clearly describes your page content for LLM understanding",
    some "Create an H1 tag that includes your primary keyword and matches your title tag intent"⟩

/-- **C5.** Auditing an empty HTML document (no markup at all) yields
schema, meta and content component scores of 0, and the recommendation
list contains the high-priority "Missing title tag" entry and the
high-priority "Missing H1 heading" entry. -/
theorem C5_empty_document (domain : String) (status_code content_length : ℕ)
    (elapsed_seconds : ℚ) (probes : ProbeResults) (ts : String) :
    (audit_success domain emptyDoc status_code content_length
        elapsed_seconds probes ts).component_scores.schema_score = 0 ∧
    (audit_success domain emptyDoc status_code content_length
        elapsed_seconds probes ts).component_scores.meta_score = 0 ∧
    (audit_success domain emptyDoc status_code content_length
        elapsed_seconds probes ts).component_scores.content_score = 0 ∧
    missingTitleRec ∈ (audit_success domain emptyDoc status_code
        content_length elapsed_seconds probes ts).recommendations ∧
    missingH1Rec ∈ (audit_success domain emptyDoc status_code content_length
        elapsed_seconds probes ts).recommendations := by
  refine ⟨?_, ?_, ?_, ?_, ?_⟩
  · show calculate_schema_score (analyze_schema_org emptyDoc.ldJsonScripts) = 0
    decide
  · show calculate_meta_score (analyze_meta_tags emptyDoc) = 0
    have hb : (analyze_meta_tags emptyDoc).completeness_basic = 0 := by
      show (0 : ℚ) / max (0 : ℚ) 0.01 = 0
      exact zero_div _
    have hs : (analyze_meta_tags emptyDoc).completeness_social = 0 := rfl
    have hms : calculate_meta_score (analyze_meta_tags emptyDoc) =
        min ((0 : ℤ) +
          pyInt ((analyze_meta_tags emptyDoc).completeness_basic * 50) +
          pyInt ((analyze_meta_tags emptyDoc).completeness_social * 30) +
          0 + 0) 100 := rfl
    rw [hms, hb, hs]
    norm_num [pyInt]
  · show calculate_content_score (analyze_content_structure emptyDoc) = 0
    decide
  · exact (mem_stableSort _ _ _).mpr
      (List.mem_append_left _ (List.mem_append_left _
        (List.mem_append_right _ (List.mem_append_left _
          (List.mem_append_left _ (List.mem_append_left _
            (List.mem_append_left _ (by decide))))))))
  · exact (mem_stableSort _ _ _).mpr
      (List.mem_append_left _ (List.mem_append_right _
        (List.mem_append_left _ (List.mem_append_left _
          (List.mem_append_left _ (List.mem_append_left _
            (List.mem_append_left _ (List.mem_append_left _
              (List.mem_append_left _ (List.mem_append_left _
                (List.mem_append_left _ (by decide))))))))))))

/-! ### C6: appending a valid FAQPage block never lowers the schema
score -/

theorem upsert_length_mono {α : Type} (l : List (String × α)) (k : String)
    (v : α) : l.length ≤ (upsert l k v).length := by
  induction l with
  | nil => simp [upsert]
  | cons kv rest ih =>
      obtain ⟨k2, v2⟩ := kv
      simp only [upsert]
      split_ifs
      · simp
      · simp only [List.length_cons]
        omega

theorem foldl_upsert_length (props : List String) : ∀ l : List (String × ℕ),
    l.length ≤
      (props.foldl (fun d p => upsert d p ((alookup d p).getD 0 + 1))
        l).length := by
  induction props with
  | nil => intro l; simp
  | cons p rest ih =>
      intro l
      simp only [List.foldl_cons]
      exact le_trans (upsert_length_mono l p ((alookup l p).getD 0 + 1))
        (ih _)

theorem mem_unionKeep (xs : List String) : ∀ (l : List String) (t : String),
    t ∈ l → t ∈ unionKeep l xs := by
  induction xs with
  | nil => intro l t h; simpa [unionKeep] using h
  | cons x rest ih =>
      intro l t h
      show t ∈ unionKeep (insertIfAbsent l x) rest
      exact ih _ t (mem_insertIfAbsent_of_mem _ _ _ h)

theorem contains_mono (l l' : List String)
    (h : ∀ t, t ∈ l → t ∈ l') (s : String) :
    l.contains s = true → l'.contains s = true := by
  intro hc
  exact List.elem_iff.mpr (h _ (List.elem_iff.mp hc))

theorem processBlock_mono (st : SchemaState) (b : Except String Json) :
    st.schemas.length ≤ (processBlock st b).schemas.length ∧
    (∀ t, t ∈ st.schema_types → t ∈ (processBlock st b).schema_types) ∧
    st.schema_properties.length ≤
      (processBlock st b).schema_properties.length := by
  cases b with
  | error msg => exact ⟨le_refl _, fun t ht => ht, le_refl _⟩
  | ok j =>
      cases hbt : blockTypeNames j with
      | error e =>
          refine ⟨?_, fun t ht => ?_, ?_⟩ <;>
            simp [processBlock, hbt]
          exact ht
      | ok ts =>
          cases hac : analyze_schema_completeness j with
          | error e =>
              refine ⟨?_, fun t ht => ?_, ?_⟩ <;>
                simp [processBlock, hbt, hac]
              · exact mem_unionKeep ts _ t ht
              · exact foldl_upsert_length (extract_schema_properties j) _
          | ok comp =>
              cases hrel : extract_schema_relationships j with
              | error e =>
                  refine ⟨?_, fun t ht => ?_, ?_⟩ <;>
                    simp [processBlock, hbt, hac, hrel]
                  · exact mem_unionKeep ts _ t ht
                  · exact foldl_upsert_length (extract_schema_properties j) _
              | ok rels =>
                  refine ⟨?_, fun t ht => ?_, ?_⟩ <;>
                    simp [processBlock, hbt, hac, hrel]
                  · exact mem_unionKeep ts _ t ht
                  · exact foldl_upsert_length (extract_schema_properties j) _

theorem ite_flag_mono (b b' : Bool) (s s' B : ℤ)
    (himp : b = true → b' = true) (hs : s ≤ s') (hB : 0 ≤ B) :
    (if b then s + B else s) ≤ (if b' then s' + B else s') := by
  cases b <;> cases b' <;> simp_all <;> omega

theorem schemaBase_mono (fb fb' : Bool) (c c' : ℕ)
    (himp : fb = true → fb' = true) (hc : c ≤ c') :
    (if fb then
      (0 : ℤ) + 15 + (if 3 ≤ c then (15 : ℤ) else if c = 2 then 10 else 5)
    else 0) ≤
    (if fb' then
      (0 : ℤ) + 15 + (if 3 ≤ c' then (15 : ℤ) else if c' = 2 then 10 else 5)
    else 0) := by
  cases fb <;> cases fb' <;> simp_all <;> split_ifs <;> omega

theorem pcTier_mono (p p' : ℕ) (h : p ≤ p') :
    (if 20 ≤ p then (30 : ℤ) else if 15 ≤ p then 25 else if 10 ≤ p then 20
      else if 5 ≤ p then 10 else if 0 < p then 5 else 0) ≤
    (if 20 ≤ p' then (30 : ℤ) else if 15 ≤ p' then 25 else if 10 ≤ p' then 20
      else if 5 ≤ p' then 10 else if 0 < p' then 5 else 0) := by
  split_ifs <;> omega

theorem calculate_schema_score_mono (r r' : SchemaReport)
    (hf : r.found = true → r'.found = true)
    (hc : r.count ≤ r'.count)
    (horg : r.hv_organization = true → r'.hv_organization = true)
    (hprod : r.hv_product = true → r'.hv_product = true)
    (hfaq : r.hv_faq = true → r'.hv_faq = true)
    (hbc : r.hv_breadcrumb = true → r'.hv_breadcrumb = true)
    (hart : r.hv_article = true → r'.hv_article = true)
    (hp : r.property_count ≤ r'.property_count) :
    calculate_schema_score r ≤ calculate_schema_score r' := by
  unfold calculate_schema_score
  apply min_le_min _ (le_refl (100 : ℤ))
  apply add_le_add _ (pcTier_mono _ _ hp)
  refine ite_flag_mono _ _ _ _ _ hart ?_ (by norm_num)
  refine ite_flag_mono _ _ _ _ _ hbc ?_ (by norm_num)
  refine ite_flag_mono _ _ _ _ _ hfaq ?_ (by norm_num)
  refine ite_flag_mono _ _ _ _ _ hprod ?_ (by norm_num)
  refine ite_flag_mono _ _ _ _ _ horg ?_ (by norm_num)
  exact schemaBase_mono _ _ _ _ hf hc

theorem analyze_schema_org_append_mono (scripts : List (Except String Json))
    (b : Except String Json) :
    calculate_schema_score (analyze_schema_org scripts) ≤
      calculate_schema_score (analyze_schema_org (scripts ++ [b])) := by
  have hfold : (scripts ++ [b]).foldl processBlock initSchemaState =
      processBlock (scripts.foldl processBlock initSchemaState) b := by
    rw [List.foldl_append, List.foldl_cons, List.foldl_nil]
  obtain ⟨hlen, htypes, hprops⟩ :=
    processBlock_mono (scripts.foldl processBlock initSchemaState) b
  refine calculate_schema_score_mono _ _ ?_ ?_ ?_ ?_ ?_ ?_ ?_ ?_
  · show decide
        ((scripts.foldl processBlock initSchemaState).schemas.length > 0) =
        true →
      decide
        (((scripts ++ [b]).foldl processBlock
          initSchemaState).schemas.length > 0) = true
    rw [hfold]
    intro h
    exact decide_eq_true (lt_of_lt_of_le (of_decide_eq_true h) hlen)
  · show (scripts.foldl processBlock initSchemaState).schemas.length ≤
      ((scripts ++ [b]).foldl processBlock initSchemaState).schemas.length
    rw [hfold]
    exact hlen
  · show decide
        ((scripts.foldl processBlock
            initSchemaState).schema_types.contains "Organization" = true ∨
          (scripts.foldl processBlock
            initSchemaState).schema_types.contains "LocalBusiness" = true ∨
          (scripts.foldl processBlock
            initSchemaState).schema_types.contains "Corporation" = true) =
        true →
      decide
        (((scripts ++ [b]).foldl processBlock
            initSchemaState).schema_types.contains "Organization" = true ∨
          ((scripts ++ [b]).foldl processBlock
            initSchemaState).schema_types.contains "LocalBusiness" = true ∨
          ((scripts ++ [b]).foldl processBlock
            initSchemaState).schema_types.contains "Corporation" = true) =
        true
    rw [hfold]
    intro h
    apply decide_eq_true
    rcases of_decide_eq_true h with h1 | h1 | h1
    · exact Or.inl (contains_mono _ _ htypes _ h1)
    · exact Or.inr (Or.inl (contains_mono _ _ htypes _ h1))
    · exact Or.inr (Or.inr (contains_mono _ _ htypes _ h1))
  · show (scripts.foldl processBlock
          initSchemaState).schema_types.contains "Product" = true →
      ((scripts ++ [b]).foldl processBlock
          initSchemaState).schema_types.contains "Product" = true
    rw [hfold]
    exact contains_mono _ _ htypes _
  · show decide
        ((scripts.foldl processBlock
            initSchemaState).schema_types.contains "FAQPage" = true ∨
          (scripts.foldl processBlock
            initSchemaState).schema_types.contains "Question" = true) =
        true →
      decide
        (((scripts ++ [b]).foldl processBlock
            initSchemaState).schema_types.contains "FAQPage" = true ∨
          ((scripts ++ [b]).foldl processBlock
            initSchemaState).schema_types.contains "Question" = true) = true
    rw [hfold]
    intro h
    apply decide_eq_true
    rcases of_decide_eq_true h with h1 | h1
    · exact Or.inl (contains_mono _ _ htypes _ h1)
    · exact Or.inr (contains_mono _ _ htypes _ h1)
  · show (scripts.foldl processBlock
          initSchemaState).schema_types.contains "BreadcrumbList" = true →
      ((scripts ++ [b]).foldl processBlock
          initSchemaState).schema_types.contains "BreadcrumbList" = true
    rw [hfold]
    exact contains_mono _ _ htypes _
  · show decide
        ((scripts.foldl processBlock
            initSchemaState).schema_types.contains "Article" = true ∨
          (scripts.foldl processBlock
            initSchemaState).schema_types.contains "BlogPosting" = true ∨
          (scripts.foldl processBlock
            initSchemaState).schema_types.contains "NewsArticle" = true) =
        true →
      decide
        (((scripts ++ [b]).foldl processBlock
            initSchemaState).schema_types.contains "Article" = true ∨
          ((scripts ++ [b]).foldl processBlock
            initSchemaState).schema_types.contains "BlogPosting" = true ∨
          ((scripts ++ [b]).foldl processBlock
            initSchemaState).schema_types.contains "NewsArticle" = true) =
        true
    rw [hfold]
    intro h
    apply decide_eq_true
    rcases of_decide_eq_true h with h1 | h1 | h1
    · exact Or.inl (contains_mono _ _ htypes _ h1)
    · exact Or.inr (Or.inl (contains_mono _ _ htypes _ h1))
    · exact Or.inr (Or.inr (contains_mono _ _ htypes _ h1))
  · show (scripts.foldl processBlock
          initSchemaState).schema_properties.length ≤
      ((scripts ++ [b]).foldl processBlock
          initSchemaState).schema_properties.length
    rw [hfold]
    exact hprops

/-- A minimal valid FAQPage JSON-LD block
(`{"@type": "FAQPage"}`). -/
def faqPageJson : Json := .obj [("@type", .str "FAQPage")]

/-- **C6.** Appending one additional valid FAQPage JSON-LD script block
(`_is_faq_schema` accepts it) to a document, all other content
unchanged, never decreases the schema component score of the audit. -/
theorem C6_faq_block_monotone (domain : String) (doc : HtmlDoc) (j : Json)
    (status_code content_length : ℕ) (elapsed_seconds : ℚ)
    (probes : ProbeResults) (ts : String)
    (hfaq : is_faq_schema j = true) :
    (audit_success domain doc status_code content_length elapsed_seconds
        probes ts).component_scores.schema_score ≤
      (audit_success domain
        { doc with ldJsonScripts := doc.ldJsonScripts ++ [Except.ok j] }
        status_code content_length elapsed_seconds probes
        ts).component_scores.schema_score := by
  show calculate_schema_score (analyze_schema_org doc.ldJsonScripts) ≤
    calculate_schema_score
      (analyze_schema_org (doc.ldJsonScripts ++ [Except.ok j]))
  exact analyze_schema_org_append_mono doc.ldJsonScripts (Except.ok j)

/-- Witness for C6: the empty document gains a
`{"@type": "FAQPage"}` block. -/
theorem C6_faq_block_monotone_witness :
    is_faq_schema faqPageJson = true ∧
    (audit_success "https://example.com" emptyDoc 200 0 0 ⟨false, false⟩
        "2024-01-01T00:00:00").component_scores.schema_score ≤
      (audit_success "https://example.com"
        { emptyDoc with
            ldJsonScripts := emptyDoc.ldJsonScripts ++
              [Except.ok faqPageJson] }
        200 0 0 ⟨false, false⟩
        "2024-01-01T00:00:00").component_scores.schema_score :=
  ⟨by decide, C6_faq_block_monotone "https://example.com" emptyDoc
    faqPageJson 200 0 0 ⟨false, false⟩ "2024-01-01T00:00:00" (by decide)⟩

end LLMO
